import Mathlib

set_option autoImplicit false

/-!
Shallow embedding of the industrial saw simulator
(`simulator/src/simulator.py`) and of the edge-device data processor
(`edge-device/src/data_processor.py`), with theorems settling the
specification claims about them.

Python floats are modelled as rationals (ℚ); every call to the random
number generator is modelled as an explicit parameter carrying the drawn
value, so that each method becomes a pure function of the state and of
the draws.
-/

namespace SawSim

/-- `MachineState` enum from `simulator.py`. -/
inductive MachineState
  | inactive
  | running
  | paused
  | alarm
  | error
deriving DecidableEq, Repr

/-- `MaterialType` dataclass from `simulator.py`. -/
structure MaterialType where
  name : String
  max_cutting_speed : ℚ
  power_consumption_factor : ℚ
deriving DecidableEq, Repr

def steel : MaterialType :=
  { name := "Steel", max_cutting_speed := 30, power_consumption_factor := 3/2 }

def aluminum : MaterialType :=
  { name := "Aluminum", max_cutting_speed := 50, power_consumption_factor := 1 }

def wood : MaterialType :=
  { name := "Wood", max_cutting_speed := 80, power_consumption_factor := 4/5 }

/-- The `self.materials` catalog, as a lookup on the dictionary key. -/
def materials (key : String) : Option MaterialType :=
  if key = "steel" then some steel
  else if key = "aluminum" then some aluminum
  else if key = "wood" then some wood
  else none

/-- The mutable fields of `IndustrialSawSimulator`. -/
structure Saw where
  state : MachineState
  cutting_speed : ℚ
  pieces_cut : ℕ
  power_consumption : ℚ
  temperature : ℚ
  safety_barrier : Bool
  blade_wear : ℚ
  current_material : MaterialType
  anomaly_chance : ℚ
deriving DecidableEq, Repr

/-- `IndustrialSawSimulator.__init__`. -/
def Saw.init : Saw :=
  { state := .inactive
    cutting_speed := 0
    pieces_cut := 0
    power_consumption := 0
    temperature := 20
    safety_barrier := true
    blade_wear := 0
    current_material := steel
    anomaly_chance := 1/100 }

/-- `IndustrialSawSimulator._update_power_consumption`. -/
def Saw.updatePowerConsumption (s : Saw) : Saw :=
  if s.state = .running then
    { s with power_consumption :=
        2 + s.cutting_speed / s.current_material.max_cutting_speed * 5 *
              s.current_material.power_consumption_factor *
              (1 + s.blade_wear / 100 * (1/2)) }
  else s

/-- `IndustrialSawSimulator._update_cutting_speed`; `r` is the value
drawn by `random.random()` (so `r ∈ [0,1)`). -/
def Saw.updateCuttingSpeed (r : ℚ) (s : Saw) : Saw :=
  if s.state = .running then
    Saw.updatePowerConsumption
      { s with cutting_speed := s.current_material.max_cutting_speed * (9/10 + r * (2/10)) }
  else s

/-- `IndustrialSawSimulator.start`; returns the updated state and the
boolean result. -/
def Saw.start (r : ℚ) (s : Saw) : Saw × Bool :=
  if (s.state = .inactive ∨ s.state = .paused) ∧ s.safety_barrier = true then
    (Saw.updateCuttingSpeed r { s with state := .running }, true)
  else (s, false)

/-- `IndustrialSawSimulator.stop`. -/
def Saw.stop (s : Saw) : Saw × Bool :=
  if s.state = .running ∨ s.state = .paused then
    ({ s with state := .inactive, cutting_speed := 0, power_consumption := 1/10 }, true)
  else (s, false)

/-- `IndustrialSawSimulator.pause`. -/
def Saw.pause (s : Saw) : Saw × Bool :=
  if s.state = .running then
    ({ s with state := .paused, cutting_speed := 0, power_consumption := s.power_consumption * (2/10) }, true)
  else (s, false)

/-- `IndustrialSawSimulator.reset`. -/
def Saw.reset (s : Saw) : Saw × Bool :=
  if s.state = .alarm ∨ s.state = .error then
    ({ s with state := .inactive, cutting_speed := 0, power_consumption := 1/10, temperature := 20 }, true)
  else (s, false)

/-- `IndustrialSawSimulator.set_material`; `r` is the draw consumed by
`_update_cutting_speed` when the machine is running. -/
def Saw.setMaterial (name : String) (r : ℚ) (s : Saw) : Saw × Bool :=
  match materials name.toLower with
  | some mat =>
      let s1 := { s with current_material := mat }
      (if s1.state = .running then Saw.updateCuttingSpeed r s1 else s1, true)
  | none => (s, false)

/-- `IndustrialSawSimulator.toggle_safety_barrier`: the barrier is
flipped, and if the machine was running and the flip opened the barrier
the machine goes to alarm.  The `try` block never raises, so the method
always returns `True`. -/
def Saw.toggleSafetyBarrier (s : Saw) : Saw × Bool :=
  let s1 := { s with safety_barrier := !s.safety_barrier }
  if s1.safety_barrier = false ∧ s.state = .running then
    ({ s1 with state := .alarm, cutting_speed := 0, power_consumption := 1/10 }, true)
  else (s1, true)

/-- The four values of `random.choice` in `_simulate_anomaly`. -/
inductive AnomalyType
  | temperatureSpike
  | powerSurge
  | speedFluctuation
  | errorState
deriving DecidableEq, Repr

/-- `IndustrialSawSimulator._simulate_anomaly`; `m` is the magnitude
drawn inside the chosen branch (`uniform(10,20)`, `uniform(1.5,2.0)` or
`uniform(0.5,1.5)`; unused for the error branch). -/
def Saw.simulateAnomaly (a : AnomalyType) (m : ℚ) (s : Saw) : Saw :=
  match a with
  | .temperatureSpike => { s with temperature := s.temperature + m }
  | .powerSurge => { s with power_consumption := s.power_consumption * m }
  | .speedFluctuation => { s with cutting_speed := s.cutting_speed * m }
  | .errorState => { s with state := .error }

/-- The random draws consumed by one `simulate_step` call. -/
structure StepRand where
  pieceDraw : ℚ
  tempNoise : ℚ
  anomalyDraw : ℚ
  anomalyType : AnomalyType
  anomalyMag : ℚ
deriving DecidableEq, Repr

/-- `IndustrialSawSimulator.simulate_step`. -/
def Saw.simulateStep (dt : ℚ) (rnd : StepRand) (s : Saw) : Saw :=
  if s.state = .running then
    let s1 := if rnd.pieceDraw < s.cutting_speed * dt / 60 then
        { s with pieces_cut := s.pieces_cut + 1 } else s
    let s2 := { s1 with blade_wear := s1.blade_wear + s1.cutting_speed * dt / 1000 }
    let s3 := { s2 with temperature := 20 + s2.power_consumption * 2 + rnd.tempNoise }
    if rnd.anomalyDraw < s3.anomaly_chance then
      Saw.simulateAnomaly rnd.anomalyType rnd.anomalyMag s3
    else s3
  else s

/-- One external interaction with the simulator: a command or a step,
together with the random draws it consumes. -/
inductive Event
  | start (r : ℚ)
  | stop
  | pause
  | reset
  | toggleBarrier
  | setMaterial (name : String) (r : ℚ)
  | step (dt : ℚ) (rnd : StepRand)
deriving DecidableEq, Repr

def applyEvent (s : Saw) (e : Event) : Saw :=
  match e with
  | .start r => (Saw.start r s).1
  | .stop => (Saw.stop s).1
  | .pause => (Saw.pause s).1
  | .reset => (Saw.reset s).1
  | .toggleBarrier => (Saw.toggleSafetyBarrier s).1
  | .setMaterial n r => (Saw.setMaterial n r s).1
  | .step dt rnd => Saw.simulateStep dt rnd s

/-- A run of the simulator: fold a list of events over a state. -/
def run (s : Saw) (es : List Event) : Saw := es.foldl applyEvent s

/-- C3: `reset()` succeeds exactly from states Alarm and Error; on
success it sets the state to Inactive, the cutting speed to 0, the power
consumption to 0.1 and the temperature to 20.0 while leaving
`pieces_cut` and `blade_wear` (and every other field) unchanged; from
any other state it returns false and changes no field. -/
theorem reset_spec (s : Saw) :
    ((Saw.reset s).2 = true ↔ s.state = .alarm ∨ s.state = .error) ∧
    (s.state = .alarm ∨ s.state = .error →
      (Saw.reset s).1.state = .inactive ∧
      (Saw.reset s).1.cutting_speed = 0 ∧
      (Saw.reset s).1.power_consumption = 1/10 ∧
      (Saw.reset s).1.temperature = 20 ∧
      (Saw.reset s).1.pieces_cut = s.pieces_cut ∧
      (Saw.reset s).1.blade_wear = s.blade_wear ∧
      (Saw.reset s).1.safety_barrier = s.safety_barrier ∧
      (Saw.reset s).1.current_material = s.current_material) ∧
    (¬(s.state = .alarm ∨ s.state = .error) → (Saw.reset s).1 = s) := by
  unfold Saw.reset
  split <;> simp_all

/-- Witness for `reset_spec` at a concrete Alarm state. -/
theorem reset_spec_witness :
    ((Saw.reset { Saw.init with state := .alarm }).2 = true ↔
      ({ Saw.init with state := .alarm } : Saw).state = .alarm ∨
        ({ Saw.init with state := .alarm } : Saw).state = .error) ∧
    (({ Saw.init with state := .alarm } : Saw).state = .alarm ∨
        ({ Saw.init with state := .alarm } : Saw).state = .error →
      (Saw.reset { Saw.init with state := .alarm }).1.state = .inactive ∧
      (Saw.reset { Saw.init with state := .alarm }).1.cutting_speed = 0 ∧
      (Saw.reset { Saw.init with state := .alarm }).1.power_consumption = 1/10 ∧
      (Saw.reset { Saw.init with state := .alarm }).1.temperature = 20 ∧
      (Saw.reset { Saw.init with state := .alarm }).1.pieces_cut =
        ({ Saw.init with state := .alarm } : Saw).pieces_cut ∧
      (Saw.reset { Saw.init with state := .alarm }).1.blade_wear =
        ({ Saw.init with state := .alarm } : Saw).blade_wear ∧
      (Saw.reset { Saw.init with state := .alarm }).1.safety_barrier =
        ({ Saw.init with state := .alarm } : Saw).safety_barrier ∧
      (Saw.reset { Saw.init with state := .alarm }).1.current_material =
        ({ Saw.init with state := .alarm } : Saw).current_material) ∧
    (¬(({ Saw.init with state := .alarm } : Saw).state = .alarm ∨
        ({ Saw.init with state := .alarm } : Saw).state = .error) →
      (Saw.reset { Saw.init with state := .alarm }).1 = { Saw.init with state := .alarm }) :=
  reset_spec { Saw.init with state := .alarm }

/-- C4: `toggle_barrier()` always returns true and flips
`safety_barrier`; if the flip opens the barrier while the machine is
Running then, within the same call, the state becomes Alarm, the cutting
speed 0 and the power consumption 0.1. -/
theorem toggle_barrier_spec (s : Saw) :
    (Saw.toggleSafetyBarrier s).2 = true ∧
    (Saw.toggleSafetyBarrier s).1.safety_barrier = !s.safety_barrier ∧
    (s.safety_barrier = true ∧ s.state = .running →
      (Saw.toggleSafetyBarrier s).1.state = .alarm ∧
      (Saw.toggleSafetyBarrier s).1.cutting_speed = 0 ∧
      (Saw.toggleSafetyBarrier s).1.power_consumption = 1/10) := by
  by_cases hb : s.safety_barrier = true <;> by_cases hs : s.state = .running <;>
    simp_all [Saw.toggleSafetyBarrier]

/-- Witness for `toggle_barrier_spec` at a concrete Running state with
the barrier closed. -/
theorem toggle_barrier_spec_witness :
    (Saw.toggleSafetyBarrier { Saw.init with state := .running }).2 = true ∧
    (Saw.toggleSafetyBarrier { Saw.init with state := .running }).1.safety_barrier =
      !({ Saw.init with state := .running } : Saw).safety_barrier ∧
    (({ Saw.init with state := .running } : Saw).safety_barrier = true ∧
        ({ Saw.init with state := .running } : Saw).state = .running →
      (Saw.toggleSafetyBarrier { Saw.init with state := .running }).1.state = .alarm ∧
      (Saw.toggleSafetyBarrier { Saw.init with state := .running }).1.cutting_speed = 0 ∧
      (Saw.toggleSafetyBarrier { Saw.init with state := .running }).1.power_consumption = 1/10) :=
  toggle_barrier_spec { Saw.init with state := .running }

/-- C5: `start()` returns true iff the state is Inactive or Paused and
the barrier is closed; on success the state becomes Running, the cutting
speed becomes `max_speed * (0.9 + r * 0.2)` (a uniform draw in
[0.9, 1.1] of max speed) and the power consumption becomes
`2 + speed / max_speed * 5 * power_factor * (1 + blade_wear / 100 * 0.5)`;
on failure nothing changes. -/
theorem start_spec (s : Saw) (r : ℚ) :
    ((Saw.start r s).2 = true ↔
      (s.state = .inactive ∨ s.state = .paused) ∧ s.safety_barrier = true) ∧
    ((s.state = .inactive ∨ s.state = .paused) ∧ s.safety_barrier = true →
      (Saw.start r s).1 =
        { s with
            state := .running
            cutting_speed := s.current_material.max_cutting_speed * (9/10 + r * (2/10))
            power_consumption :=
              2 + s.current_material.max_cutting_speed * (9/10 + r * (2/10)) /
                    s.current_material.max_cutting_speed * 5 *
                  s.current_material.power_consumption_factor *
                  (1 + s.blade_wear / 100 * (1/2)) }) ∧
    (¬((s.state = .inactive ∨ s.state = .paused) ∧ s.safety_barrier = true) →
      Saw.start r s = (s, false)) ∧
    (0 ≤ r ∧ r ≤ 1 → 9/10 ≤ 9/10 + r * (2/10) ∧ 9/10 + r * (2/10) ≤ 11/10) := by
  refine ⟨?_, ?_, ?_, ?_⟩
  · unfold Saw.start
    split <;> simp_all
  · intro h
    unfold Saw.start Saw.updateCuttingSpeed Saw.updatePowerConsumption
    split <;> simp_all
  · intro h
    unfold Saw.start
    split <;> simp_all
  · rintro ⟨h0, h1⟩
    constructor <;> nlinarith

/-- Witness for `start_spec` at the initial state with draw 1/2. -/
theorem start_spec_witness :
    ((Saw.start (1/2) Saw.init).2 = true ↔
      (Saw.init.state = .inactive ∨ Saw.init.state = .paused) ∧
        Saw.init.safety_barrier = true) ∧
    ((Saw.init.state = .inactive ∨ Saw.init.state = .paused) ∧
        Saw.init.safety_barrier = true →
      (Saw.start (1/2) Saw.init).1 =
        { Saw.init with
            state := .running
            cutting_speed :=
              Saw.init.current_material.max_cutting_speed * (9/10 + (1/2) * (2/10))
            power_consumption :=
              2 + Saw.init.current_material.max_cutting_speed * (9/10 + (1/2) * (2/10)) /
                    Saw.init.current_material.max_cutting_speed * 5 *
                  Saw.init.current_material.power_consumption_factor *
                  (1 + Saw.init.blade_wear / 100 * (1/2)) }) ∧
    (¬((Saw.init.state = .inactive ∨ Saw.init.state = .paused) ∧
        Saw.init.safety_barrier = true) →
      Saw.start (1/2) Saw.init = (Saw.init, false)) ∧
    (0 ≤ (1/2 : ℚ) ∧ (1/2 : ℚ) ≤ 1 →
      9/10 ≤ 9/10 + (1/2 : ℚ) * (2/10) ∧ 9/10 + (1/2 : ℚ) * (2/10) ≤ 11/10) :=
  start_spec Saw.init (1/2)

/-! ### C1: the cutting-speed invariant -/

/-- Event sequence exhibiting the anomaly-forced transition to Error:
start the saw (draw 0, so cutting speed 27), then one step whose anomaly
draw fires (0 < 1/100) and whose chosen anomaly is the error state. -/
def c1Events : List Event :=
  [ Event.start 0,
    Event.step 1
      { pieceDraw := 9/10, tempNoise := 0, anomalyDraw := 0,
        anomalyType := .errorState, anomalyMag := 0 } ]

/-- C1 counterexample: after `c1Events` the machine is not Running (it
is in Error), yet the cutting speed is not 0 — the `error_state` anomaly
branch of `_simulate_anomaly` changes only `state`. -/
theorem cutting_speed_error_counterexample :
    (run Saw.init c1Events).state ≠ .running ∧
    (run Saw.init c1Events).cutting_speed ≠ 0 := by
  norm_num [run, c1Events, List.foldl_cons, List.foldl_nil, applyEvent, Saw.init, steel,
    Saw.start, Saw.updateCuttingSpeed, Saw.updatePowerConsumption, Saw.simulateStep,
    Saw.simulateAnomaly]
  all_goals decide

/-- Amended C1 invariant: cutting speed is zero in the Inactive, Paused
and Alarm states.  Error is excluded because the anomaly-forced
transition to Error leaves the cutting speed untouched. -/
def SpeedZeroInv (s : Saw) : Prop :=
  s.state = .inactive ∨ s.state = .paused ∨ s.state = .alarm → s.cutting_speed = 0

/-- `simulate_step` is the identity outside the Running state. -/
theorem simulateStep_not_running (dt : ℚ) (rnd : StepRand) (s : Saw)
    (h : ¬s.state = .running) : Saw.simulateStep dt rnd s = s := by
  unfold Saw.simulateStep
  simp [h]

/-- From Running, a step ends in Running or (via the anomaly) Error. -/
theorem simulateStep_state (dt : ℚ) (rnd : StepRand) (s : Saw) (h : s.state = .running) :
    (Saw.simulateStep dt rnd s).state = .running ∨
      (Saw.simulateStep dt rnd s).state = .error := by
  rcases rnd with ⟨pd, tn, ad, at_, am⟩
  unfold Saw.simulateStep Saw.simulateAnomaly
  cases at_ <;> dsimp only <;> split_ifs <;> simp_all

/-- A step leaves the cutting speed unchanged unless the speed
fluctuation anomaly fires, which multiplies it by the drawn magnitude. -/
theorem simulateStep_cutting_speed (dt : ℚ) (rnd : StepRand) (s : Saw) :
    (Saw.simulateStep dt rnd s).cutting_speed = s.cutting_speed ∨
      (rnd.anomalyType = .speedFluctuation ∧
        (Saw.simulateStep dt rnd s).cutting_speed = s.cutting_speed * rnd.anomalyMag) := by
  rcases rnd with ⟨pd, tn, ad, at_, am⟩
  unfold Saw.simulateStep Saw.simulateAnomaly
  cases at_ <;> dsimp only <;> split_ifs <;> simp_all

/-- A step never changes the current material. -/
theorem simulateStep_material (dt : ℚ) (rnd : StepRand) (s : Saw) :
    (Saw.simulateStep dt rnd s).current_material = s.current_material := by
  rcases rnd with ⟨pd, tn, ad, at_, am⟩
  unfold Saw.simulateStep Saw.simulateAnomaly
  cases at_ <;> dsimp only <;> split_ifs <;> simp_all

/-- A step leaves `pieces_cut` unchanged or increments it. -/
theorem simulateStep_pieces (dt : ℚ) (rnd : StepRand) (s : Saw) :
    (Saw.simulateStep dt rnd s).pieces_cut = s.pieces_cut ∨
      (Saw.simulateStep dt rnd s).pieces_cut = s.pieces_cut + 1 := by
  rcases rnd with ⟨pd, tn, ad, at_, am⟩
  unfold Saw.simulateStep Saw.simulateAnomaly
  cases at_ <;> dsimp only <;> split_ifs <;> simp_all

/-- A step leaves `blade_wear` unchanged or accrues
`cutting_speed * dt / 1000`. -/
theorem simulateStep_wear (dt : ℚ) (rnd : StepRand) (s : Saw) :
    (Saw.simulateStep dt rnd s).blade_wear = s.blade_wear ∨
      (Saw.simulateStep dt rnd s).blade_wear = s.blade_wear + s.cutting_speed * dt / 1000 := by
  rcases rnd with ⟨pd, tn, ad, at_, am⟩
  unfold Saw.simulateStep Saw.simulateAnomaly
  cases at_ <;> dsimp only <;> split_ifs <;> simp_all

/-- `set_material` leaves state, speed, wear and pieces unchanged when
the machine is not running, and keeps it Running otherwise; the material
becomes the catalog entry when the name is known. -/
theorem setMaterial_fields (n : String) (r : ℚ) (s : Saw) :
    ((Saw.setMaterial n r s).1.state = s.state ∧
      (Saw.setMaterial n r s).1.pieces_cut = s.pieces_cut ∧
      (Saw.setMaterial n r s).1.blade_wear = s.blade_wear) ∧
    (¬s.state = .running → (Saw.setMaterial n r s).1.cutting_speed = s.cutting_speed) := by
  unfold Saw.setMaterial Saw.updateCuttingSpeed Saw.updatePowerConsumption
  rcases hmat : materials n.toLower with _ | m
  · simp_all
  · dsimp only
    split_ifs <;> simp_all

theorem speedZeroInv_applyEvent (s : Saw) (e : Event) (h : SpeedZeroInv s) :
    SpeedZeroInv (applyEvent s e) := by
  unfold SpeedZeroInv at h ⊢
  cases e with
  | start r =>
      unfold applyEvent Saw.start Saw.updateCuttingSpeed Saw.updatePowerConsumption
      dsimp only
      split_ifs <;> simp_all
  | stop => unfold applyEvent Saw.stop; dsimp only; split_ifs <;> simp_all
  | pause => unfold applyEvent Saw.pause; dsimp only; split_ifs <;> simp_all
  | reset => unfold applyEvent Saw.reset; dsimp only; split_ifs <;> simp_all
  | toggleBarrier =>
      unfold applyEvent Saw.toggleSafetyBarrier
      dsimp only
      split_ifs <;> simp_all
  | setMaterial n r =>
      have hfld := setMaterial_fields n r s
      simp only [applyEvent]
      intro hst
      rw [hfld.1.1] at hst
      by_cases hr : s.state = .running
      · rw [hr] at hst; simp_all
      · rw [hfld.2 hr]; exact h hst
  | step dt rnd =>
      simp only [applyEvent]
      by_cases hr : s.state = .running
      · intro hst
        rcases simulateStep_state dt rnd s hr with h1 | h1 <;>
          rcases hst with h2 | h2 | h2 <;> rw [h1] at h2 <;> simp_all
      · rw [simulateStep_not_running dt rnd s hr]; exact h

theorem speedZeroInv_run (s : Saw) (es : List Event) (h : SpeedZeroInv s) :
    SpeedZeroInv (run s es) := by
  induction es generalizing s with
  | nil => exact h
  | cons e es ih => exact ih (applyEvent s e) (speedZeroInv_applyEvent s e h)

/-- C1 amended: in every run from the initial state, the cutting speed
is 0 whenever the state is Inactive, Paused or Alarm; after the
anomaly-forced transition to Error the cutting speed may stay nonzero. -/
theorem cutting_speed_zero_amended (es : List Event)
    (h : (run Saw.init es).state = .inactive ∨ (run Saw.init es).state = .paused ∨
      (run Saw.init es).state = .alarm) :
    (run Saw.init es).cutting_speed = 0 :=
  speedZeroInv_run Saw.init es (fun _ => rfl) h

/-- Witness for `cutting_speed_zero_amended` on a one-event run. -/
theorem cutting_speed_zero_amended_witness :
    ((run Saw.init [Event.toggleBarrier]).state = .inactive ∨
      (run Saw.init [Event.toggleBarrier]).state = .paused ∨
      (run Saw.init [Event.toggleBarrier]).state = .alarm) ∧
    (run Saw.init [Event.toggleBarrier]).cutting_speed = 0 :=
  ⟨by simp [run, applyEvent, Saw.toggleSafetyBarrier, Saw.init],
    cutting_speed_zero_amended [Event.toggleBarrier]
      (by simp [run, applyEvent, Saw.toggleSafetyBarrier, Saw.init])⟩

/-! ### C2: monotonicity of `pieces_cut` and `blade_wear` -/

/-- Start the saw, run one anomaly-free step (accruing blade wear), then
open the barrier to force the Alarm state. -/
def c2Events : List Event :=
  [ Event.start 0,
    Event.step 1
      { pieceDraw := 9/10, tempNoise := 0, anomalyDraw := 1/2,
        anomalyType := .temperatureSpike, anomalyMag := 15 },
    Event.toggleBarrier ]

/-- C2 counterexample: a successful `reset()` from Alarm does not
re-zero `blade_wear` — the wear accrued before the alarm survives the
reset. -/
theorem reset_blade_wear_counterexample :
    (run Saw.init c2Events).state = .alarm ∧
    (Saw.reset (run Saw.init c2Events)).2 = true ∧
    (Saw.reset (run Saw.init c2Events)).1.blade_wear ≠ 0 := by
  norm_num [run, c2Events, List.foldl_cons, List.foldl_nil, applyEvent, Saw.init, steel,
    Saw.start, Saw.updateCuttingSpeed, Saw.updatePowerConsumption, Saw.simulateStep,
    Saw.simulateAnomaly, Saw.toggleSafetyBarrier, Saw.reset]

/-- Ranges of the random draws consumed by an event, as produced by
`random.random()`, `random.uniform` and `random.choice` in the source. -/
def ValidEvent : Event → Prop
  | .start r => 0 ≤ r ∧ r < 1
  | .setMaterial _ r => 0 ≤ r ∧ r < 1
  | .step dt rnd =>
      0 ≤ dt ∧ 0 ≤ rnd.pieceDraw ∧ rnd.pieceDraw < 1 ∧
      -(1/2) ≤ rnd.tempNoise ∧ rnd.tempNoise ≤ 1/2 ∧
      0 ≤ rnd.anomalyDraw ∧ rnd.anomalyDraw < 1 ∧
      (match rnd.anomalyType with
        | .temperatureSpike => 10 ≤ rnd.anomalyMag ∧ rnd.anomalyMag ≤ 20
        | .powerSurge => 3/2 ≤ rnd.anomalyMag ∧ rnd.anomalyMag ≤ 2
        | .speedFluctuation => 1/2 ≤ rnd.anomalyMag ∧ rnd.anomalyMag ≤ 3/2
        | .errorState => True)
  | _ => True

/-- States whose physical quantities are in the ranges the simulator
maintains: nonnegative cutting speed and a material from the catalog
(hence positive max speed and power factor). -/
def GoodSaw (s : Saw) : Prop :=
  0 ≤ s.cutting_speed ∧ 0 < s.current_material.max_cutting_speed ∧
    0 < s.current_material.power_consumption_factor

theorem materials_pos (k : String) (m : MaterialType) (h : materials k = some m) :
    0 < m.max_cutting_speed ∧ 0 < m.power_consumption_factor := by
  unfold materials at h
  split_ifs at h <;> simp_all [steel, aluminum, wood] <;> norm_num [← h]

/-- `set_material` only installs catalog materials. -/
theorem setMaterial_pos (n : String) (r : ℚ) (s : Saw) (hg : GoodSaw s) :
    0 < (Saw.setMaterial n r s).1.current_material.max_cutting_speed ∧
      0 < (Saw.setMaterial n r s).1.current_material.power_consumption_factor := by
  unfold Saw.setMaterial Saw.updateCuttingSpeed Saw.updatePowerConsumption
  rcases hmat : materials n.toLower with _ | m
  · simp only [hmat]
    exact ⟨hg.2.1, hg.2.2⟩
  · have := materials_pos _ _ hmat
    dsimp only
    split_ifs <;> simp_all

/-- On success, `set_material` while Running recomputes the speed from
the new material; otherwise the speed is unchanged. -/
theorem setMaterial_speed (n : String) (r : ℚ) (s : Saw) (hr0 : 0 ≤ r) (hg : GoodSaw s) :
    0 ≤ s.cutting_speed → 0 ≤ (Saw.setMaterial n r s).1.cutting_speed := by
  intro hs
  unfold Saw.setMaterial Saw.updateCuttingSpeed Saw.updatePowerConsumption
  rcases hmat : materials n.toLower with _ | m
  · simp only [hmat]
    exact hs
  · have hp := materials_pos _ _ hmat
    dsimp only
    split_ifs <;> simp_all <;> nlinarith

theorem goodSaw_applyEvent (s : Saw) (e : Event) (hg : GoodSaw s) (hv : ValidEvent e) :
    GoodSaw (applyEvent s e) := by
  obtain ⟨hs, hm, hf⟩ := hg
  cases e with
  | start r =>
      obtain ⟨hr0, hr1⟩ := hv
      unfold applyEvent Saw.start Saw.updateCuttingSpeed Saw.updatePowerConsumption GoodSaw
      dsimp only
      split_ifs <;> simp_all <;> nlinarith
  | stop => unfold applyEvent Saw.stop GoodSaw; dsimp only; split_ifs <;> simp_all
  | pause => unfold applyEvent Saw.pause GoodSaw; dsimp only; split_ifs <;> simp_all
  | reset => unfold applyEvent Saw.reset GoodSaw; dsimp only; split_ifs <;> simp_all
  | toggleBarrier =>
      unfold applyEvent Saw.toggleSafetyBarrier GoodSaw
      dsimp only
      split_ifs <;> simp_all
  | setMaterial n r =>
      obtain ⟨hr0, hr1⟩ := hv
      have h1 := setMaterial_speed n r s hr0 ⟨hs, hm, hf⟩ hs
      have h2 := setMaterial_pos n r s ⟨hs, hm, hf⟩
      exact ⟨h1, h2.1, h2.2⟩
  | step dt rnd =>
      simp only [applyEvent]
      refine ⟨?_, ?_, ?_⟩
      · rcases simulateStep_cutting_speed dt rnd s with hc | ⟨hty, hc⟩
        · rw [hc]; exact hs
        · rw [hc]
          rcases rnd with ⟨pd, tn, ad, at_, am⟩
          obtain ⟨hdt, h1, h2, h3, h4, h5, h6, h7⟩ := hv
          cases at_ <;> simp_all <;> nlinarith
      · rw [simulateStep_material dt rnd s]; exact hm
      · rw [simulateStep_material dt rnd s]; exact hf

/-- A single event never decreases `pieces_cut` or `blade_wear`. -/
theorem pieces_wear_mono_applyEvent (s : Saw) (e : Event)
    (hg : GoodSaw s) (hv : ValidEvent e) :
    s.pieces_cut ≤ (applyEvent s e).pieces_cut ∧
      s.blade_wear ≤ (applyEvent s e).blade_wear := by
  obtain ⟨hs, hm, hf⟩ := hg
  cases e with
  | start r =>
      unfold applyEvent Saw.start Saw.updateCuttingSpeed Saw.updatePowerConsumption
      dsimp only
      split_ifs <;> simp_all
  | stop => unfold applyEvent Saw.stop; dsimp only; split_ifs <;> simp_all
  | pause => unfold applyEvent Saw.pause; dsimp only; split_ifs <;> simp_all
  | reset => unfold applyEvent Saw.reset; dsimp only; split_ifs <;> simp_all
  | toggleBarrier =>
      unfold applyEvent Saw.toggleSafetyBarrier
      dsimp only
      split_ifs <;> simp_all
  | setMaterial n r =>
      have hfld := setMaterial_fields n r s
      exact ⟨le_of_eq hfld.1.2.1.symm, le_of_eq hfld.1.2.2.symm⟩
  | step dt rnd =>
      simp only [applyEvent]
      constructor
      · rcases simulateStep_pieces dt rnd s with hp | hp <;> rw [hp] <;> omega
      · rcases simulateStep_wear dt rnd s with hw | hw <;> rw [hw]
        obtain ⟨hdt, hrest⟩ := hv
        nlinarith

theorem goodSaw_run (s : Saw) (es : List Event) (hg : GoodSaw s)
    (hv : ∀ e ∈ es, ValidEvent e) : GoodSaw (run s es) := by
  induction es generalizing s with
  | nil => exact hg
  | cons e es ih =>
      exact ih (applyEvent s e)
        (goodSaw_applyEvent s e hg (hv e (List.mem_cons_self e es)))
        (fun x hx => hv x (List.mem_cons_of_mem e hx))

theorem pieces_wear_mono_run (s : Saw) (es : List Event) (hg : GoodSaw s)
    (hv : ∀ e ∈ es, ValidEvent e) :
    s.pieces_cut ≤ (run s es).pieces_cut ∧ s.blade_wear ≤ (run s es).blade_wear := by
  induction es generalizing s with
  | nil => exact ⟨Nat.le_refl s.pieces_cut, le_refl s.blade_wear⟩
  | cons e es ih =>
      have h1 := pieces_wear_mono_applyEvent s e hg (hv e (List.mem_cons_self e es))
      have h2 := ih (applyEvent s e)
        (goodSaw_applyEvent s e hg (hv e (List.mem_cons_self e es)))
        (fun x hx => hv x (List.mem_cons_of_mem e hx))
      exact ⟨le_trans h1.1 h2.1, le_trans h1.2 h2.2⟩

/-- C2 amended: a successful `reset()` from Alarm or Error leaves
`blade_wear` and `pieces_cut` unchanged (it does not re-zero the wear),
and `pieces_cut` and `blade_wear` never decrease under any sequence of
operations whose random draws are in range — including reset. -/
theorem wear_pieces_monotone_amended (s : Saw) (es : List Event)
    (hg : GoodSaw s) (hv : ∀ e ∈ es, ValidEvent e) :
    ((Saw.reset s).1.blade_wear = s.blade_wear ∧
      (Saw.reset s).1.pieces_cut = s.pieces_cut) ∧
    s.pieces_cut ≤ (run s es).pieces_cut ∧
      s.blade_wear ≤ (run s es).blade_wear := by
  refine ⟨?_, pieces_wear_mono_run s es hg hv⟩
  unfold Saw.reset
  split_ifs <;> simp_all

/-- Witness for `wear_pieces_monotone_amended`: the initial state and
the concrete run `c2Events`. -/
theorem wear_pieces_monotone_amended_witness :
    (((Saw.reset Saw.init).1.blade_wear = Saw.init.blade_wear ∧
      (Saw.reset Saw.init).1.pieces_cut = Saw.init.pieces_cut) ∧
    Saw.init.pieces_cut ≤ (run Saw.init c2Events).pieces_cut ∧
      Saw.init.blade_wear ≤ (run Saw.init c2Events).blade_wear) :=
  wear_pieces_monotone_amended Saw.init c2Events
    (by refine ⟨le_refl 0, ?_, ?_⟩ <;> norm_num [Saw.init, steel])
    (by intro e he
        fin_cases he <;> norm_num [ValidEvent])

end SawSim

namespace EdgeProc

/-- `AlertSeverity` enum from `data_processor.py`. -/
inductive AlertSeverity
  | info
  | warning
  | critical
deriving DecidableEq, Repr

/-- `Alert` dataclass from `data_processor.py`.  The numeric values
interpolated into the Python message strings are elided; only the fixed
message text matters here. -/
structure Alert where
  type : String
  message : String
  severity : AlertSeverity
  timestamp : ℚ
  active : Bool
deriving DecidableEq, Repr

/-- The mutable fields of `DataProcessor`.  The Python `active_alerts`
list holds references to the same `Alert` objects stored in
`alert_history`; the sharing is modelled by keeping the objects in the
append-only `alert_history` and storing indices into it in
`active_alerts`, so that an in-place `active = False` mutation is
visible through both lists. -/
structure DataProcessor where
  window_size : ℕ
  power_history : List (ℚ × ℚ)
  speed_history : List (ℚ × ℚ)
  temperature_history : List (ℚ × ℚ)
  hourly_pieces : ℚ
  last_hour_reset : ℚ
  alert_history : List Alert
  active_alerts : List ℕ
deriving DecidableEq, Repr

/-- `DataProcessor.__init__`; `now` is the `datetime.now()` at
construction.  Times are rationals counting seconds. -/
def DataProcessor.init (window_size : ℕ) (now : ℚ) : DataProcessor :=
  { window_size := window_size
    power_history := []
    speed_history := []
    temperature_history := []
    hourly_pieces := 0
    last_hour_reset := now
    alert_history := []
    active_alerts := [] }

/-- `self.thresholds` (fixed at construction, never mutated). -/
def temperature_warning : ℚ := 40
def temperature_critical : ℚ := 50
def blade_wear_warning : ℚ := 70
def blade_wear_critical : ℚ := 90
def power_warning : ℚ := 8
def power_critical : ℚ := 10

/-- `collections.deque(maxlen=n).append`: append the sample and, when
the queue would exceed `maxlen`, silently discard the oldest entries. -/
def dequeAppend (maxlen : ℕ) (xs : List (ℚ × ℚ)) (x : ℚ × ℚ) : List (ℚ × ℚ) :=
  let ys := xs ++ [x]
  if ys.length ≤ maxlen then ys else ys.drop (ys.length - maxlen)

/-- The type of the alert object a given active-list entry refers to. -/
def typeAt (p : DataProcessor) (i : ℕ) : Option String :=
  (p.alert_history[i]?).map Alert.type

/-- Whether an alert of the given type is in the active set
(`next((a for a in self.active_alerts if a.type == alert_type), None)`
being not `None`). -/
def isActive (p : DataProcessor) (t : String) : Bool :=
  p.active_alerts.any (fun i => typeAt p i == some t)

/-- `DataProcessor._add_alert`: no-op when an active alert of this type
exists; otherwise a fresh alert object is appended to both the active
list and the history. -/
def addAlert (p : DataProcessor) (t msg : String) (sev : AlertSeverity) (now : ℚ) :
    DataProcessor :=
  if isActive p t then p
  else
    { p with
        alert_history := p.alert_history ++
          [{ type := t, message := msg, severity := sev, timestamp := now, active := true }]
        active_alerts := p.active_alerts ++ [p.alert_history.length] }

/-- `DataProcessor._clear_alert`: flip the matching active alert's
`active` flag in place (visible through the history, which shares the
object) and remove it from the active list.  `_add_alert` keeps at most
one active alert per type, so clearing the first match is exact. -/
def clearAlert (p : DataProcessor) (t : String) : DataProcessor :=
  match p.active_alerts.find? (fun i => typeAt p i == some t) with
  | none => p
  | some i =>
      { p with
          alert_history :=
            match p.alert_history[i]? with
            | some al => p.alert_history.set i { al with active := false }
            | none => p.alert_history
          active_alerts := p.active_alerts.erase i }

/-- A reading as passed to `process_state`: a dictionary whose keys may
be missing (a missing key raises `KeyError`, modelled by `none`). -/
structure StateMsg where
  state : Option String
  cuttingspeed : Option ℚ
  piecescut : Option ℚ
  powerconsumption : Option ℚ
  temperature : Option ℚ
  safetybarrier : Option Bool
  bladewear : Option ℚ
deriving DecidableEq, Repr

/-- The temperature block of `DataProcessor._check_alerts`. -/
def checkTemperature (p : DataProcessor) (msg : StateMsg) (now : ℚ) :
    DataProcessor × Except String Unit :=
  match msg.temperature with
  | none => (p, .error "temperature")
  | some temp =>
      if temperature_critical < temp then
        (addAlert p "high_temperature" "Temperature critically high" .critical now, .ok ())
      else if temperature_warning < temp then
        (addAlert p "elevated_temperature" "Temperature elevated" .warning now, .ok ())
      else
        (clearAlert (clearAlert p "high_temperature") "elevated_temperature", .ok ())

/-- The blade-wear block of `DataProcessor._check_alerts`: raises but
never clears. -/
def checkBladeWear (p : DataProcessor) (msg : StateMsg) (now : ℚ) :
    DataProcessor × Except String Unit :=
  match msg.bladewear with
  | none => (p, .error "bladewear")
  | some wear =>
      if blade_wear_critical < wear then
        (addAlert p "blade_critical" "Blade wear critical, replacement needed" .critical now, .ok ())
      else if blade_wear_warning < wear then
        (addAlert p "blade_warning" "Blade wear high, plan replacement" .warning now, .ok ())
      else (p, .ok ())

/-- The power-consumption block of `DataProcessor._check_alerts`:
raises but never clears. -/
def checkPower (p : DataProcessor) (msg : StateMsg) (now : ℚ) :
    DataProcessor × Except String Unit :=
  match msg.powerconsumption with
  | none => (p, .error "powerconsumption")
  | some power =>
      if power_critical < power then
        (addAlert p "high_power_consumption" "Critical power consumption" .critical now, .ok ())
      else if power_warning < power then
        (addAlert p "elevated_power_consumption" "High power consumption" .warning now, .ok ())
      else (p, .ok ())

/-- The safety block of `DataProcessor._check_alerts`; the `and`
short-circuits, so `state` is only accessed when the barrier is open. -/
def checkSafety (p : DataProcessor) (msg : StateMsg) (now : ℚ) :
    DataProcessor × Except String Unit :=
  match msg.safetybarrier with
  | none => (p, .error "safetybarrier")
  | some sb =>
      if sb = false then
        match msg.state with
        | none => (p, .error "state")
        | some st =>
            if st = "running" then
              (addAlert p "safety_violation" "Machine running with safety barrier open"
                .critical now, .ok ())
            else (p, .ok ())
      else (p, .ok ())

/-- `DataProcessor._check_alerts`: the four blocks in source order; a
`KeyError` in one block aborts the rest but keeps prior mutations. -/
def checkAlerts (p : DataProcessor) (msg : StateMsg) (now : ℚ) :
    DataProcessor × Except String Unit :=
  match checkTemperature p msg now with
  | (p1, .error e) => (p1, .error e)
  | (p1, .ok _) =>
      match checkBladeWear p1 msg now with
      | (p2, .error e) => (p2, .error e)
      | (p2, .ok _) =>
          match checkPower p2 msg now with
          | (p3, .error e) => (p3, .error e)
          | (p3, .ok _) => checkSafety p3 msg now

/-- Per-channel aggregates of `_calculate_metrics`. -/
structure ChannelMetrics where
  current : ℚ
  avg : ℚ
  max : ℚ
  min : ℚ
deriving DecidableEq, Repr

/-- The metrics dictionary returned by `_calculate_metrics`. -/
structure Metrics where
  powerconsumption : ChannelMetrics
  cuttingspeed : ChannelMetrics
  temperature : ChannelMetrics
  hourly_rate : ℚ
deriving DecidableEq, Repr

def listSum (xs : List ℚ) : ℚ := xs.foldl (fun a b => a + b) 0

/-- Aggregates over one channel's in-window samples: last value,
`statistics.mean`, `max`, `min`, each 0 when the window is empty. -/
def channelMetrics (recent : List ℚ) : ChannelMetrics :=
  { current := recent.getLast?.getD 0
    avg := match recent with
      | [] => 0
      | x :: xs => listSum (x :: xs) / ((x :: xs).length : ℚ)
    max := match recent with
      | [] => 0
      | x :: xs => xs.foldl max x
    min := match recent with
      | [] => 0
      | x :: xs => xs.foldl min x }

/-- `DataProcessor._calculate_metrics` at time `now`: keep only samples
strictly newer than `now - window_size` and aggregate each channel. -/
def calculateMetrics (p : DataProcessor) (now : ℚ) : Metrics :=
  let window_start := now - (p.window_size : ℚ)
  { powerconsumption := channelMetrics
      ((p.power_history.filter (fun s => decide (window_start < s.1))).map Prod.snd)
    cuttingspeed := channelMetrics
      ((p.speed_history.filter (fun s => decide (window_start < s.1))).map Prod.snd)
    temperature := channelMetrics
      ((p.temperature_history.filter (fun s => decide (window_start < s.1))).map Prod.snd)
    hourly_rate := p.hourly_pieces }

/-- `DataProcessor.process_state`: append to the per-channel histories,
maintain the hourly counter, check alerts and compute metrics.  Each
dictionary access happens in source order; a missing key propagates the
error upward (`raise` in the `except` block) while keeping every
mutation already performed. -/
def processState (p : DataProcessor) (msg : StateMsg) (now : ℚ) :
    DataProcessor × Except String Metrics :=
  match msg.powerconsumption with
  | none => (p, .error "powerconsumption")
  | some pw =>
    let p1 := { p with power_history := dequeAppend p.window_size p.power_history (now, pw) }
    match msg.cuttingspeed with
    | none => (p1, .error "cuttingspeed")
    | some sp =>
      let p2 := { p1 with speed_history := dequeAppend p1.window_size p1.speed_history (now, sp) }
      match msg.temperature with
      | none => (p2, .error "temperature")
      | some tmp =>
        let p3 := { p2 with
          temperature_history := dequeAppend p2.window_size p2.temperature_history (now, tmp) }
        let p4 := if 3600 < now - p3.last_hour_reset then
            { p3 with hourly_pieces := 0, last_hour_reset := now } else p3
        match msg.piecescut with
        | none => (p4, .error "piecescut")
        | some pc =>
          let p5 := { p4 with hourly_pieces := pc }
          match checkAlerts p5 msg now with
          | (p6, .error e) => (p6, .error e)
          | (p6, .ok _) => (p6, .ok (calculateMetrics p6 now))

/-! ### Lemmas about the alert store -/

theorem typeAt_lt (p : DataProcessor) (i : ℕ) (t : String) (h : typeAt p i = some t) :
    i < p.alert_history.length := by
  by_contra hle
  rw [typeAt, List.getElem?_eq_none (Nat.le_of_not_lt hle)] at h
  simp at h

theorem isActive_iff (p : DataProcessor) (k : String) :
    isActive p k = true ↔ ∃ i ∈ p.active_alerts, typeAt p i = some k := by
  unfold isActive
  rw [List.any_eq_true]
  constructor
  · rintro ⟨i, hi, hp⟩
    exact ⟨i, hi, by simpa using hp⟩
  · rintro ⟨i, hi, hp⟩
    exact ⟨i, hi, by simpa using hp⟩

/-- `_add_alert` makes a kind active iff it was active before or it is
the raised kind. -/
theorem isActive_addAlert (p : DataProcessor) (t m k : String) (sev : AlertSeverity) (ts : ℚ) :
    isActive (addAlert p t m sev ts) k = true ↔ (isActive p k = true ∨ k = t) := by
  unfold addAlert
  by_cases hact : isActive p t
  · rw [if_pos hact]
    constructor
    · exact fun h => Or.inl h
    · rintro (h | rfl)
      · exact h
      · exact hact
  · rw [if_neg hact]
    rw [isActive_iff, isActive_iff]
    constructor
    · rintro ⟨i, hi, hti⟩
      simp only [List.mem_append, List.mem_singleton] at hi
      rcases hi with hi | rfl
      · rcases Nat.lt_trichotomy i p.alert_history.length with hlt | heq | hgt
        · left
          refine ⟨i, hi, ?_⟩
          simp only [typeAt] at hti ⊢
          rwa [List.getElem?_append_left hlt] at hti
        · right
          subst heq
          simp only [typeAt, List.getElem?_concat_length, Option.map_some] at hti
          exact (Option.some.inj hti).symm
        · exfalso
          have hnone : (p.alert_history ++
              [{ type := t, message := m, severity := sev, timestamp := ts,
                 active := true }] : List Alert)[i]? = none := by
            apply List.getElem?_eq_none
            simp only [List.length_append, List.length_singleton]
            omega
          simp only [typeAt, hnone, Option.map_none] at hti
          exact Option.noConfusion hti
      · right
        simp only [typeAt, List.getElem?_concat_length, Option.map_some] at hti
        exact (Option.some.inj hti).symm
    · rintro (⟨i, hi, hti⟩ | rfl)
      · have hlt := typeAt_lt p i k hti
        refine ⟨i, by simp [hi], ?_⟩
        simp only [typeAt] at hti ⊢
        rwa [List.getElem?_append_left hlt]
      · refine ⟨p.alert_history.length, by simp, ?_⟩
        simp [typeAt, List.getElem?_concat_length]

/-- Explicit form of `_clear_alert` when no active alert matches. -/
theorem clearAlert_of_none (p : DataProcessor) (t : String)
    (hf : p.active_alerts.find? (fun i => typeAt p i == some t) = none) :
    clearAlert p t = p := by
  simp only [clearAlert, hf]

/-- Explicit form of `_clear_alert` when an active alert matches. -/
theorem clearAlert_of_some (p : DataProcessor) (t : String) (i : ℕ) (al : Alert)
    (hf : p.active_alerts.find? (fun j => typeAt p j == some t) = some i)
    (hg : p.alert_history[i]? = some al) :
    clearAlert p t =
      { p with
          alert_history := p.alert_history.set i { al with active := false }
          active_alerts := p.active_alerts.erase i } := by
  simp only [clearAlert, hf, hg]

/-- Degenerate form of `_clear_alert`: matched index out of range. -/
theorem clearAlert_of_some_none (p : DataProcessor) (t : String) (i : ℕ)
    (hf : p.active_alerts.find? (fun j => typeAt p j == some t) = some i)
    (hg : p.alert_history[i]? = none) :
    clearAlert p t = { p with active_alerts := p.active_alerts.erase i } := by
  simp only [clearAlert, hf, hg]

/-- `_clear_alert` never changes the type stored at any history index
(it only flips the `active` flag of the cleared row). -/
theorem typeAt_clearAlert (p : DataProcessor) (t : String) (j : ℕ) :
    typeAt (clearAlert p t) j = typeAt p j := by
  rcases hf : p.active_alerts.find? (fun i => typeAt p i == some t) with _ | i
  · rw [clearAlert_of_none p t hf]
  · rcases hg : p.alert_history[i]? with _ | al
    · rw [clearAlert_of_some_none p t i hf hg]
      rfl
    · rw [clearAlert_of_some p t i al hf hg]
      have hlen : i < p.alert_history.length := (List.getElem?_eq_some.mp hg).1
      by_cases hij : j = i
      · subst hij
        simp only [typeAt]
        rw [List.getElem?_set_eq_of_lt _ hlen, hg]
        rfl
      · simp only [typeAt]
        rw [List.getElem?_set_ne (fun he => hij he.symm)]

theorem mem_active_clearAlert (p : DataProcessor) (t : String) (j : ℕ)
    (hj : j ∈ (clearAlert p t).active_alerts) : j ∈ p.active_alerts := by
  rcases hf : p.active_alerts.find? (fun i => typeAt p i == some t) with _ | i
  · rwa [clearAlert_of_none p t hf] at hj
  · rcases hg : p.alert_history[i]? with _ | al
    · rw [clearAlert_of_some_none p t i hf hg] at hj
      exact List.erase_subset _ _ hj
    · rw [clearAlert_of_some p t i al hf hg] at hj
      exact List.erase_subset _ _ hj

/-- `_clear_alert` can only shrink the active set. -/
theorem isActive_clearAlert_true (p : DataProcessor) (t k : String)
    (h : isActive (clearAlert p t) k = true) : isActive p k = true := by
  rw [isActive_iff] at h ⊢
  rcases h with ⟨j, hj, ht⟩
  rw [typeAt_clearAlert] at ht
  exact ⟨j, mem_active_clearAlert p t j hj, ht⟩

/-- `_clear_alert` leaves kinds other than the cleared one active. -/
theorem isActive_clearAlert_of_ne (p : DataProcessor) (t k : String) (hkt : k ≠ t)
    (h : isActive p k = true) : isActive (clearAlert p t) k = true := by
  rw [isActive_iff] at h ⊢
  rcases h with ⟨j, hj, ht⟩
  refine ⟨j, ?_, by rw [typeAt_clearAlert]; exact ht⟩
  rcases hf : p.active_alerts.find? (fun i => typeAt p i == some t) with _ | i
  · rwa [clearAlert_of_none p t hf]
  · have hit : typeAt p i = some t := by simpa using List.find?_some hf
    have hji : j ≠ i := by
      intro he
      rw [he, hit] at ht
      exact hkt (Option.some.inj ht).symm
    rcases hg : p.alert_history[i]? with _ | al
    · rw [clearAlert_of_some_none p t i hf hg]
      exact (List.mem_erase_of_ne hji).mpr hj
    · rw [clearAlert_of_some p t i al hf hg]
      exact (List.mem_erase_of_ne hji).mpr hj

/-- Well-formed alert bookkeeping, maintained by the processor: every
active entry references an existing, still-active history row; no two
active entries share a type; every active history row is referenced. -/
def Wf (p : DataProcessor) : Prop :=
  (∀ i ∈ p.active_alerts, ∃ al, p.alert_history[i]? = some al ∧ al.active = true) ∧
  p.active_alerts.Pairwise (fun i j => typeAt p i ≠ typeAt p j) ∧
  (∀ i al, p.alert_history[i]? = some al → al.active = true → i ∈ p.active_alerts)

theorem Wf.nodup {p : DataProcessor} (hw : Wf p) : p.active_alerts.Nodup :=
  hw.2.1.imp (fun hR he => hR (by rw [he]))

theorem Wf_init (w : ℕ) (now : ℚ) : Wf (DataProcessor.init w now) := by
  refine ⟨?_, ?_, ?_⟩ <;> simp [DataProcessor.init]

/-- With well-formed bookkeeping, `_clear_alert` removes its kind from
the active set. -/
theorem isActive_clearAlert_self (p : DataProcessor) (t : String) (hw : Wf p) :
    isActive (clearAlert p t) t = false := by
  rcases hf : p.active_alerts.find? (fun i => typeAt p i == some t) with _ | i
  · rw [clearAlert_of_none p t hf]
    rw [← Bool.not_eq_true, isActive_iff]
    rintro ⟨j, hj, ht⟩
    have hne := List.find?_eq_none.mp hf j hj
    simp [ht] at hne
  · rw [← Bool.not_eq_true, isActive_iff]
    rintro ⟨j, hj, ht⟩
    rw [typeAt_clearAlert] at ht
    have hjmem : j ∈ p.active_alerts := mem_active_clearAlert p t j hj
    have hit : typeAt p i = some t := by simpa using List.find?_some hf
    have himem : i ∈ p.active_alerts := List.mem_of_find?_eq_some hf
    have hji : j ≠ i := by
      obtain ⟨al0, hg0, _⟩ := hw.1 i himem
      have hjer : j ∈ p.active_alerts.erase i := by
        rcases hg : p.alert_history[i]? with _ | al
        · rw [clearAlert_of_some_none p t i hf hg] at hj; exact hj
        · rw [clearAlert_of_some p t i al hf hg] at hj; exact hj
      exact ((hw.nodup.mem_erase_iff).mp hjer).1
    have hne := (hw.2.1.forall (fun _ _ hh => hh.symm)) hjmem himem hji
    rw [ht, hit] at hne
    exact hne rfl

/-- With well-formed bookkeeping, `_clear_alert` maps every history row
to itself, except the active row of the cleared kind whose `active`
flag is flipped in place. -/
theorem clearAlert_history (p : DataProcessor) (t : String) (hw : Wf p) (i : ℕ) (al : Alert)
    (h : p.alert_history[i]? = some al) :
    (clearAlert p t).alert_history[i]? =
      some (if al.type = t ∧ al.active = true then { al with active := false } else al) := by
  rcases hf : p.active_alerts.find? (fun j => typeAt p j == some t) with _ | i0
  · have hcond : ¬(al.type = t ∧ al.active = true) := by
      rintro ⟨h1, h2⟩
      have hmem := hw.2.2 i al h h2
      have hne := List.find?_eq_none.mp hf i hmem
      simp [typeAt, h, h1] at hne
    rw [clearAlert_of_none p t hf, h]
    simp [hcond]
  · have hit : typeAt p i0 = some t := by simpa using List.find?_some hf
    have hmem0 : i0 ∈ p.active_alerts := List.mem_of_find?_eq_some hf
    obtain ⟨al0, hg0, hact0⟩ := hw.1 i0 hmem0
    have htype0 : al0.type = t := by
      rw [typeAt, hg0] at hit
      simpa using hit
    rw [clearAlert_of_some p t i0 al0 hf hg0]
    by_cases hii : i = i0
    · subst hii
      rw [h] at hg0
      obtain rfl : al = al0 := Option.some.inj hg0
      rw [List.getElem?_set_eq_of_lt _ ((List.getElem?_eq_some.mp h).1)]
      simp [htype0, hact0]
    · have hcond : ¬(al.type = t ∧ al.active = true) := by
        rintro ⟨h1, h2⟩
        have hmem := hw.2.2 i al h h2
        have hne := (hw.2.1.forall (fun _ _ hh => hh.symm)) hmem hmem0 hii
        rw [typeAt, typeAt, h, hg0] at hne
        simp [h1, htype0] at hne
      rw [List.getElem?_set_ne (fun he => hii he.symm), h]
      simp [hcond]

/-- `_add_alert` preserves existing history rows. -/
theorem addAlert_history (p : DataProcessor) (t m : String) (sev : AlertSeverity) (ts : ℚ)
    (i : ℕ) (al : Alert) (h : p.alert_history[i]? = some al) :
    (addAlert p t m sev ts).alert_history[i]? = some al := by
  unfold addAlert
  by_cases hact : isActive p t
  · rwa [if_pos hact]
  · rw [if_neg hact]
    have hlt : i < p.alert_history.length := (List.getElem?_eq_some.mp h).1
    simpa [List.getElem?_append_left hlt] using h

theorem Wf_addAlert (p : DataProcessor) (t m : String) (sev : AlertSeverity) (ts : ℚ)
    (hw : Wf p) : Wf (addAlert p t m sev ts) := by
  unfold addAlert
  by_cases hact : isActive p t
  · rwa [if_pos hact]
  · rw [if_neg hact]
    obtain ⟨hw1, hw2, hw3⟩ := hw
    refine ⟨?_, ?_, ?_⟩
    · intro i hi
      simp only [List.mem_append, List.mem_singleton] at hi
      rcases hi with hi | rfl
      · obtain ⟨al, hg, ha⟩ := hw1 i hi
        have hlt : i < p.alert_history.length := (List.getElem?_eq_some.mp hg).1
        exact ⟨al, by simpa [List.getElem?_append_left hlt] using hg, ha⟩
      · exact ⟨{ type := t, message := m, severity := sev, timestamp := ts, active := true },
          List.getElem?_concat_length _ _, rfl⟩
    · rw [List.pairwise_append]
      refine ⟨?_, ?_, ?_⟩
      · refine hw2.imp_of_mem (fun ha hb hR => ?_)
        obtain ⟨ala, hga, _⟩ := hw1 _ ha
        obtain ⟨alb, hgb, _⟩ := hw1 _ hb
        have hla := (List.getElem?_eq_some.mp hga).1
        have hlb := (List.getElem?_eq_some.mp hgb).1
        simpa [typeAt, List.getElem?_append_left hla,
          List.getElem?_append_left hlb] using hR
      · simp
      · intro a ha b hb
        simp only [List.mem_singleton] at hb
        subst hb
        obtain ⟨ala, hga, _⟩ := hw1 a ha
        have hla := (List.getElem?_eq_some.mp hga).1
        intro hR
        simp only [typeAt, List.getElem?_append_left hla,
          List.getElem?_concat_length, Option.map_some, hga] at hR
        apply hact
        rw [isActive_iff]
        refine ⟨a, ha, ?_⟩
        rw [typeAt, hga]
        simpa using hR
    · intro i al hg ha
      rcases Nat.lt_trichotomy i p.alert_history.length with hlt | heq | hgt
      · rw [List.getElem?_append_left hlt] at hg
        exact List.mem_append.mpr (Or.inl (hw3 i al hg ha))
      · subst heq
        simp
      · exfalso
        have hnone : (p.alert_history ++
            [{ type := t, message := m, severity := sev, timestamp := ts,
               active := true }] : List Alert)[i]? = none := by
          apply List.getElem?_eq_none
          simp only [List.length_append, List.length_singleton]
          omega
        rw [hnone] at hg
        exact Option.noConfusion hg

theorem Wf_clearAlert (p : DataProcessor) (t : String) (hw : Wf p) : Wf (clearAlert p t) := by
  obtain ⟨hw1, hw2, hw3⟩ := hw
  rcases hf : p.active_alerts.find? (fun j => typeAt p j == some t) with _ | i0
  · rw [clearAlert_of_none p t hf]
    exact ⟨hw1, hw2, hw3⟩
  · have hmem0 : i0 ∈ p.active_alerts := List.mem_of_find?_eq_some hf
    obtain ⟨al0, hg0, hact0⟩ := hw1 i0 hmem0
    have hlen0 : i0 < p.alert_history.length := (List.getElem?_eq_some.mp hg0).1
    have hnodup : p.active_alerts.Nodup := Wf.nodup ⟨hw1, hw2, hw3⟩
    have hpair : (p.active_alerts.erase i0).Pairwise
        (fun i j => typeAt p i ≠ typeAt p j) := hw2.sublist (List.erase_sublist _ _)
    rw [clearAlert_of_some p t i0 al0 hf hg0]
    refine ⟨?_, ?_, ?_⟩
    · intro j hj
      have hji2 : j ≠ i0 := ((hnodup.mem_erase_iff).mp hj).1
      obtain ⟨al, hg, ha⟩ := hw1 j (List.erase_subset _ _ hj)
      refine ⟨al, ?_, ha⟩
      rw [List.getElem?_set_ne (fun he => hji2 he.symm)]
      exact hg
    · refine hpair.imp_of_mem (fun ha hb hR => ?_)
      have hja : _ ≠ i0 := ((hnodup.mem_erase_iff).mp ha).1
      have hjb : _ ≠ i0 := ((hnodup.mem_erase_iff).mp hb).1
      simpa [typeAt, List.getElem?_set_ne (fun he => hja he.symm),
        List.getElem?_set_ne (fun he => hjb he.symm)] using hR
    · intro j al hg ha
      by_cases hji : j = i0
      · subst hji
        rw [List.getElem?_set_eq_of_lt _ hlen0] at hg
        obtain rfl : { al0 with active := false } = al := Option.some.inj hg
        simp at ha
      · rw [List.getElem?_set_ne (fun he => hji he.symm)] at hg
        exact (List.mem_erase_of_ne hji).mpr (hw3 j al hg ha)

/-- `_add_alert` of a different kind does not change a kind's activity. -/
theorem isActive_addAlert_ne (p : DataProcessor) (t m k : String) (sev : AlertSeverity)
    (ts : ℚ) (hkt : k ≠ t) : isActive (addAlert p t m sev ts) k = isActive p k := by
  have h := isActive_addAlert p t m k sev ts
  cases hb : isActive p k
  · cases hb2 : isActive (addAlert p t m sev ts) k
    · rfl
    · rcases h.mp hb2 with h1 | h1
      · rw [hb] at h1
        exact absurd h1 (by simp)
      · exact absurd h1 hkt
  · exact h.mpr (Or.inl hb)

/-- `_clear_alert` of a different kind does not change a kind's
activity. -/
theorem isActive_clearAlert_ne (p : DataProcessor) (t k : String) (hkt : k ≠ t) :
    isActive (clearAlert p t) k = isActive p k := by
  cases hb : isActive p k
  · cases hb2 : isActive (clearAlert p t) k
    · rfl
    · rw [isActive_clearAlert_true p t k hb2] at hb
      exact absurd hb (by simp)
  · exact isActive_clearAlert_of_ne p t k hkt hb

/-- A raising `_add_alert` call appends the new alert row at the end of
the history. -/
theorem addAlert_new_row (p : DataProcessor) (t m : String) (sev : AlertSeverity) (ts : ℚ)
    (hact : isActive p t = false) :
    (addAlert p t m sev ts).alert_history[p.alert_history.length]? =
      some { type := t, message := m, severity := sev, timestamp := ts, active := true } := by
  unfold addAlert
  rw [if_neg (by simp [hact])]
  exact List.getElem?_concat_length _ _

/-- The blade-wear block touches no kind but its own two. -/
theorem isActive_checkBladeWear_ne (p : DataProcessor) (msg : StateMsg) (now : ℚ)
    (k : String) (h1 : k ≠ "blade_critical") (h2 : k ≠ "blade_warning") :
    isActive (checkBladeWear p msg now).1 k = isActive p k := by
  rcases hb : msg.bladewear with _ | wear <;> simp only [checkBladeWear, hb]
  split_ifs <;> first
    | exact isActive_addAlert_ne _ _ _ _ _ _ h1
    | exact isActive_addAlert_ne _ _ _ _ _ _ h2
    | rfl

/-- The power block touches no kind but its own two. -/
theorem isActive_checkPower_ne (p : DataProcessor) (msg : StateMsg) (now : ℚ)
    (k : String) (h1 : k ≠ "high_power_consumption") (h2 : k ≠ "elevated_power_consumption") :
    isActive (checkPower p msg now).1 k = isActive p k := by
  rcases hb : msg.powerconsumption with _ | power <;> simp only [checkPower, hb]
  split_ifs <;> first
    | exact isActive_addAlert_ne _ _ _ _ _ _ h1
    | exact isActive_addAlert_ne _ _ _ _ _ _ h2
    | rfl

/-- The safety block touches no kind but `safety_violation`. -/
theorem isActive_checkSafety_ne (p : DataProcessor) (msg : StateMsg) (now : ℚ)
    (k : String) (h1 : k ≠ "safety_violation") :
    isActive (checkSafety p msg now).1 k = isActive p k := by
  rcases hb : msg.safetybarrier with _ | sb
  · simp only [checkSafety, hb]
  · simp only [checkSafety, hb]
    split_ifs
    · rcases hst : msg.state with _ | st
      · simp only [hst]
      · simp only [hst]
        split_ifs
        · exact isActive_addAlert_ne _ _ _ _ _ _ h1
        · rfl
    · rfl

/-- The temperature block touches no kind but its own two. -/
theorem isActive_checkTemperature_ne (p : DataProcessor) (msg : StateMsg) (now : ℚ)
    (k : String) (h1 : k ≠ "high_temperature") (h2 : k ≠ "elevated_temperature") :
    isActive (checkTemperature p msg now).1 k = isActive p k := by
  rcases hb : msg.temperature with _ | temp <;> simp only [checkTemperature, hb]
  split_ifs
  · exact isActive_addAlert_ne _ _ _ _ _ _ h1
  · exact isActive_addAlert_ne _ _ _ _ _ _ h2
  · rw [isActive_clearAlert_ne _ _ _ h2, isActive_clearAlert_ne _ _ _ h1]

/-- Each of the three raise-only blocks keeps every active kind
active. -/
theorem isActive_checkBladeWear_mono (p : DataProcessor) (msg : StateMsg) (now : ℚ)
    (k : String) (h : isActive p k = true) :
    isActive (checkBladeWear p msg now).1 k = true := by
  rcases hb : msg.bladewear with _ | wear
  · simpa only [checkBladeWear, hb] using h
  · simp only [checkBladeWear, hb]
    split_ifs <;> first
      | exact (isActive_addAlert _ _ _ _ _ _).mpr (Or.inl h)
      | exact h

theorem isActive_checkPower_mono (p : DataProcessor) (msg : StateMsg) (now : ℚ)
    (k : String) (h : isActive p k = true) :
    isActive (checkPower p msg now).1 k = true := by
  rcases hb : msg.powerconsumption with _ | power
  · simpa only [checkPower, hb] using h
  · simp only [checkPower, hb]
    split_ifs <;> first
      | exact (isActive_addAlert _ _ _ _ _ _).mpr (Or.inl h)
      | exact h

theorem isActive_checkSafety_mono (p : DataProcessor) (msg : StateMsg) (now : ℚ)
    (k : String) (h : isActive p k = true) :
    isActive (checkSafety p msg now).1 k = true := by
  rcases hb : msg.safetybarrier with _ | sb
  · simpa only [checkSafety, hb] using h
  · simp only [checkSafety, hb]
    split_ifs
    · rcases hst : msg.state with _ | st
      · simpa only [hst] using h
      · simp only [hst]
        split_ifs <;> first
          | exact (isActive_addAlert _ _ _ _ _ _).mpr (Or.inl h)
          | exact h
    · exact h

/-- Every block preserves existing history rows (they only append). -/
theorem checkBladeWear_history (p : DataProcessor) (msg : StateMsg) (now : ℚ)
    (i : ℕ) (al : Alert) (h : p.alert_history[i]? = some al) :
    (checkBladeWear p msg now).1.alert_history[i]? = some al := by
  rcases hb : msg.bladewear with _ | wear
  · simpa only [checkBladeWear, hb] using h
  · simp only [checkBladeWear, hb]
    split_ifs <;> first
      | exact addAlert_history _ _ _ _ _ _ _ h
      | exact h

theorem checkPower_history (p : DataProcessor) (msg : StateMsg) (now : ℚ)
    (i : ℕ) (al : Alert) (h : p.alert_history[i]? = some al) :
    (checkPower p msg now).1.alert_history[i]? = some al := by
  rcases hb : msg.powerconsumption with _ | power
  · simpa only [checkPower, hb] using h
  · simp only [checkPower, hb]
    split_ifs <;> first
      | exact addAlert_history _ _ _ _ _ _ _ h
      | exact h

theorem checkSafety_history (p : DataProcessor) (msg : StateMsg) (now : ℚ)
    (i : ℕ) (al : Alert) (h : p.alert_history[i]? = some al) :
    (checkSafety p msg now).1.alert_history[i]? = some al := by
  rcases hb : msg.safetybarrier with _ | sb
  · simpa only [checkSafety, hb] using h
  · simp only [checkSafety, hb]
    split_ifs
    · rcases hst : msg.state with _ | st
      · simpa only [hst] using h
      · simp only [hst]
        split_ifs <;> first
          | exact addAlert_history _ _ _ _ _ _ _ h
          | exact h
    · exact h

/-- The tail of `_check_alerts` after the temperature block neither
touches the two temperature kinds nor any existing history row. -/
theorem checkAlerts_after_temperature (p : DataProcessor) (msg : StateMsg) (now : ℚ)
    (k : String) (hk1 : k ≠ "blade_critical") (hk2 : k ≠ "blade_warning")
    (hk3 : k ≠ "high_power_consumption") (hk4 : k ≠ "elevated_power_consumption")
    (hk5 : k ≠ "safety_violation") :
    isActive (checkAlerts p msg now).1 k = isActive (checkTemperature p msg now).1 k ∧
    (∀ (i : ℕ) (al : Alert), (checkTemperature p msg now).1.alert_history[i]? = some al →
      (checkAlerts p msg now).1.alert_history[i]? = some al) := by
  unfold checkAlerts
  rcases h1 : checkTemperature p msg now with ⟨p1, e1⟩
  rcases e1 with e1 | u1 <;> simp only [h1]
  · exact ⟨trivial, fun i al h => h⟩
  · rcases h2 : checkBladeWear p1 msg now with ⟨p2, e2⟩
    have hp2a : isActive p2 k = isActive p1 k := by
      have := isActive_checkBladeWear_ne p1 msg now k hk1 hk2
      rwa [h2] at this
    have hp2h : ∀ (i : ℕ) (al : Alert), p1.alert_history[i]? = some al →
        p2.alert_history[i]? = some al := by
      intro i al h
      have := checkBladeWear_history p1 msg now i al h
      rwa [h2] at this
    rcases e2 with e2 | u2 <;> simp only [h2]
    · exact ⟨hp2a, hp2h⟩
    · rcases h3 : checkPower p2 msg now with ⟨p3, e3⟩
      have hp3a : isActive p3 k = isActive p2 k := by
        have := isActive_checkPower_ne p2 msg now k hk3 hk4
        rwa [h3] at this
      have hp3h : ∀ (i : ℕ) (al : Alert), p2.alert_history[i]? = some al →
          p3.alert_history[i]? = some al := by
        intro i al h
        have := checkPower_history p2 msg now i al h
        rwa [h3] at this
      rcases e3 with e3 | u3 <;> simp only [h3]
      · exact ⟨hp3a.trans hp2a, fun i al h => hp3h i al (hp2h i al h)⟩
      · refine ⟨?_, ?_⟩
        · rw [isActive_checkSafety_ne p3 msg now k hk5, hp3a, hp2a]
        · intro i al h
          exact checkSafety_history p3 msg now i al (hp3h i al (hp2h i al h))

/-- A complete reading (no missing keys). -/
def mkMsg (st : String) (sp pc pw tmp : ℚ) (sb : Bool) (bw : ℚ) : StateMsg :=
  { state := some st, cuttingspeed := some sp, piecescut := some pc,
    powerconsumption := some pw, temperature := some tmp, safetybarrier := some sb,
    bladewear := some bw }

/-- The temperature part of the alert lifecycle for one evaluated
reading (the property of claim C6). -/
def TempLifecycleSpec (p : DataProcessor) (msg : StateMsg) (now temp : ℚ) : Prop :=
  (temperature_critical < temp →
    isActive (checkAlerts p msg now).1 "high_temperature" = true ∧
    isActive (checkAlerts p msg now).1 "elevated_temperature" =
      isActive p "elevated_temperature" ∧
    (isActive p "high_temperature" = false →
      (checkAlerts p msg now).1.alert_history[p.alert_history.length]? =
        some { type := "high_temperature", message := "Temperature critically high",
               severity := .critical, timestamp := now, active := true })) ∧
  (temperature_warning < temp → temp ≤ temperature_critical →
    isActive (checkAlerts p msg now).1 "elevated_temperature" = true ∧
    isActive (checkAlerts p msg now).1 "high_temperature" = isActive p "high_temperature" ∧
    (isActive p "elevated_temperature" = false →
      (checkAlerts p msg now).1.alert_history[p.alert_history.length]? =
        some { type := "elevated_temperature", message := "Temperature elevated",
               severity := .warning, timestamp := now, active := true })) ∧
  (temp ≤ temperature_warning →
    isActive (checkAlerts p msg now).1 "high_temperature" = false ∧
    isActive (checkAlerts p msg now).1 "elevated_temperature" = false ∧
    (∀ (i : ℕ) (al : Alert), p.alert_history[i]? = some al →
      (al.type = "high_temperature" ∨ al.type = "elevated_temperature") →
      ∃ al', (checkAlerts p msg now).1.alert_history[i]? = some al' ∧
        al'.type = al.type ∧ al'.message = al.message ∧ al'.severity = al.severity ∧
        al'.timestamp = al.timestamp ∧ al'.active = false))

/-- C6: for every evaluated reading, temperature above the critical
threshold raises `high_temperature` (Critical) and leaves
`elevated_temperature` untouched; above warning but not critical raises
`elevated_temperature` (Warning); at or below warning both temperature
kinds are cleared from the active set while every previously raised
temperature row stays in the history with `active = false`. -/
theorem temperature_alert_lifecycle (p : DataProcessor) (msg : StateMsg) (now temp : ℚ)
    (hw : Wf p) (ht : msg.temperature = some temp) :
    TempLifecycleSpec p msg now temp := by
  have htrH := checkAlerts_after_temperature p msg now "high_temperature"
    (by decide) (by decide) (by decide) (by decide) (by decide)
  have htrE := checkAlerts_after_temperature p msg now "elevated_temperature"
    (by decide) (by decide) (by decide) (by decide) (by decide)
  refine ⟨?_, ?_, ?_⟩
  · intro hcrit
    have hct : checkTemperature p msg now =
        (addAlert p "high_temperature" "Temperature critically high" .critical now,
          .ok ()) := by
      simp only [checkTemperature, ht]
      rw [if_pos hcrit]
    refine ⟨?_, ?_, ?_⟩
    · rw [htrH.1, hct]
      exact (isActive_addAlert _ _ _ _ _ _).mpr (Or.inr rfl)
    · rw [htrE.1, hct]
      exact isActive_addAlert_ne _ _ _ _ _ _ (by decide)
    · intro hnot
      apply htrH.2
      rw [hct]
      exact addAlert_new_row p _ _ _ now hnot
  · intro hwarm hncrit
    have hct : checkTemperature p msg now =
        (addAlert p "elevated_temperature" "Temperature elevated" .warning now, .ok ()) := by
      simp only [checkTemperature, ht]
      rw [if_neg (not_lt.mpr hncrit), if_pos hwarm]
    refine ⟨?_, ?_, ?_⟩
    · rw [htrE.1, hct]
      exact (isActive_addAlert _ _ _ _ _ _).mpr (Or.inr rfl)
    · rw [htrH.1, hct]
      exact isActive_addAlert_ne _ _ _ _ _ _ (by decide)
    · intro hnot
      apply htrE.2
      rw [hct]
      exact addAlert_new_row p _ _ _ now hnot
  · intro hcool
    have hncrit : ¬temperature_critical < temp := by
      rw [not_lt]
      calc temp ≤ temperature_warning := hcool
        _ ≤ temperature_critical := by norm_num [temperature_warning, temperature_critical]
    have hct : checkTemperature p msg now =
        (clearAlert (clearAlert p "high_temperature") "elevated_temperature", .ok ()) := by
      simp only [checkTemperature, ht]
      rw [if_neg hncrit, if_neg (not_lt.mpr hcool)]
    have hwf1 := Wf_clearAlert p "high_temperature" hw
    refine ⟨?_, ?_, ?_⟩
    · rw [htrH.1, hct]
      rw [isActive_clearAlert_ne _ _ _ (by decide)]
      exact isActive_clearAlert_self p _ hw
    · rw [htrE.1, hct]
      exact isActive_clearAlert_self _ _ hwf1
    · intro i al hrow htk
      have h1 := clearAlert_history p "high_temperature" hw i al hrow
      have h2 := clearAlert_history (clearAlert p "high_temperature")
        "elevated_temperature" hwf1 i _ h1
      refine ⟨{ al with active := false }, ?_, rfl, rfl, rfl, rfl, rfl⟩
      apply htrH.2
      rw [hct]
      dsimp only
      rw [h2]
      obtain ⟨ty, ms, sv, tss, ac⟩ := al
      rcases htk with htk | htk <;> subst htk <;> cases ac <;> simp

/-- Witness for `temperature_alert_lifecycle`: the freshly constructed
processor and a cool reading. -/
theorem temperature_alert_lifecycle_witness :
    TempLifecycleSpec (DataProcessor.init 60 0) (mkMsg "inactive" 0 0 1 35 true 0) 1 35 :=
  temperature_alert_lifecycle (DataProcessor.init 60 0)
    (mkMsg "inactive" 0 0 1 35 true 0) 1 35 (Wf_init 60 0) rfl

/-- The alert kinds the evaluator never auto-clears (claim C7). -/
def persistentKinds : List String :=
  ["blade_critical", "blade_warning", "high_power_consumption", "elevated_power_consumption"]

/-- One `_check_alerts` call keeps every wear- and power-based kind
active: only the two temperature kinds are ever cleared. -/
theorem isActive_checkAlerts_persistent (p : DataProcessor) (msg : StateMsg) (now : ℚ)
    (k : String) (hk : k ∈ persistentKinds) (h : isActive p k = true) :
    isActive (checkAlerts p msg now).1 k = true := by
  have key : ∀ k', k' ≠ "high_temperature" → k' ≠ "elevated_temperature" →
      isActive p k' = true → isActive (checkAlerts p msg now).1 k' = true := by
    intro k' h1 h2 hact
    unfold checkAlerts
    rcases hct : checkTemperature p msg now with ⟨p1, e1⟩
    have hp1 : isActive p1 k' = true := by
      have heq := isActive_checkTemperature_ne p msg now k' h1 h2
      rw [hct] at heq
      rw [show isActive p1 k' = isActive (p1, e1).1 k' from rfl, heq]
      exact hact
    rcases e1 with e1 | u1 <;> simp only [hct]
    · exact hp1
    · rcases hbw : checkBladeWear p1 msg now with ⟨p2, e2⟩
      have hp2 : isActive p2 k' = true := by
        have := isActive_checkBladeWear_mono p1 msg now k' hp1
        rwa [hbw] at this
      rcases e2 with e2 | u2 <;> simp only [hbw]
      · exact hp2
      · rcases hpw : checkPower p2 msg now with ⟨p3, e3⟩
        have hp3 : isActive p3 k' = true := by
          have := isActive_checkPower_mono p2 msg now k' hp2
          rwa [hpw] at this
        rcases e3 with e3 | u3 <;> simp only [hpw]
        · exact hp3
        · exact isActive_checkSafety_mono p3 msg now k' hp3
  fin_cases hk <;> exact key _ (by decide) (by decide) h

/-- A sequence of `evaluate` calls: fold `_check_alerts` over readings
paired with their timestamps. -/
def evalRun (p : DataProcessor) (msgs : List (StateMsg × ℚ)) : DataProcessor :=
  msgs.foldl (fun q m => (checkAlerts q m.1 m.2).1) p

/-- C7: once one of the kinds `blade_critical`, `blade_warning`,
`high_power_consumption` or `elevated_power_consumption` is in the
active set, no subsequent sequence of evaluate calls removes it — the
evaluator never auto-clears wear- or power-based alerts. -/
theorem persistent_alerts_never_cleared (p : DataProcessor) (msgs : List (StateMsg × ℚ))
    (k : String) (hk : k ∈ persistentKinds) (h : isActive p k = true) :
    isActive (evalRun p msgs) k = true := by
  induction msgs generalizing p with
  | nil => exact h
  | cons mw rest ih =>
      exact ih (checkAlerts p mw.1 mw.2).1 (isActive_checkAlerts_persistent p mw.1 mw.2 k hk h)

/-- Witness for `persistent_alerts_never_cleared`: a processor holding
an active `blade_critical` alert, evaluated on a calm reading. -/
theorem persistent_alerts_never_cleared_witness :
    "blade_critical" ∈ persistentKinds ∧
    isActive (addAlert (DataProcessor.init 60 0) "blade_critical"
      "Blade wear critical, replacement needed" AlertSeverity.critical 0)
      "blade_critical" = true ∧
    isActive (evalRun (addAlert (DataProcessor.init 60 0) "blade_critical"
      "Blade wear critical, replacement needed" AlertSeverity.critical 0)
      [(mkMsg "inactive" 0 0 1 20 true 0, 1)]) "blade_critical" = true :=
  ⟨by decide, by decide,
    persistent_alerts_never_cleared _ _ "blade_critical" (by decide) (by decide)⟩

/-- C10: a reading carrying `powerconsumption` but missing
`cuttingspeed` makes `process_state` propagate the error and yield no
metrics, yet the sample already appended to the power channel stays in
the buffer while the other channels and the alert store are untouched:
ingestion is not atomic on error. -/
theorem process_state_not_atomic (p : DataProcessor) (now pw : ℚ)
    (st : Option String) (pc : Option ℚ) (tmp : Option ℚ) (sb : Option Bool)
    (bw : Option ℚ) :
    (processState p
        { state := st, cuttingspeed := none, piecescut := pc,
          powerconsumption := some pw, temperature := tmp, safetybarrier := sb,
          bladewear := bw } now).2 = .error "cuttingspeed" ∧
    (processState p
        { state := st, cuttingspeed := none, piecescut := pc,
          powerconsumption := some pw, temperature := tmp, safetybarrier := sb,
          bladewear := bw } now).1.power_history =
      dequeAppend p.window_size p.power_history (now, pw) ∧
    (processState p
        { state := st, cuttingspeed := none, piecescut := pc,
          powerconsumption := some pw, temperature := tmp, safetybarrier := sb,
          bladewear := bw } now).1.speed_history = p.speed_history ∧
    (processState p
        { state := st, cuttingspeed := none, piecescut := pc,
          powerconsumption := some pw, temperature := tmp, safetybarrier := sb,
          bladewear := bw } now).1.temperature_history = p.temperature_history ∧
    (processState p
        { state := st, cuttingspeed := none, piecescut := pc,
          powerconsumption := some pw, temperature := tmp, safetybarrier := sb,
          bladewear := bw } now).1.alert_history = p.alert_history ∧
    (processState p
        { state := st, cuttingspeed := none, piecescut := pc,
          powerconsumption := some pw, temperature := tmp, safetybarrier := sb,
          bladewear := bw } now).1.hourly_pieces = p.hourly_pieces :=
  ⟨rfl, rfl, rfl, rfl, rfl, rfl⟩

/-! ### Frame and success lemmas for `process_state` -/

/-- Equality of every field the alert operations do not touch. -/
def SameNonAlert (q p : DataProcessor) : Prop :=
  q.window_size = p.window_size ∧ q.power_history = p.power_history ∧
  q.speed_history = p.speed_history ∧ q.temperature_history = p.temperature_history ∧
  q.hourly_pieces = p.hourly_pieces ∧ q.last_hour_reset = p.last_hour_reset

theorem SameNonAlert.rfl (p : DataProcessor) : SameNonAlert p p :=
  ⟨Eq.refl _, Eq.refl _, Eq.refl _, Eq.refl _, Eq.refl _, Eq.refl _⟩

theorem SameNonAlert.trans {a b c : DataProcessor}
    (h1 : SameNonAlert a b) (h2 : SameNonAlert b c) : SameNonAlert a c :=
  ⟨h1.1.trans h2.1, h1.2.1.trans h2.2.1, h1.2.2.1.trans h2.2.2.1,
    h1.2.2.2.1.trans h2.2.2.2.1, h1.2.2.2.2.1.trans h2.2.2.2.2.1,
    h1.2.2.2.2.2.trans h2.2.2.2.2.2⟩

theorem addAlert_frame (p : DataProcessor) (t m : String) (sev : AlertSeverity) (ts : ℚ) :
    SameNonAlert (addAlert p t m sev ts) p := by
  unfold addAlert
  split_ifs <;> exact SameNonAlert.rfl _

theorem clearAlert_frame (p : DataProcessor) (t : String) :
    SameNonAlert (clearAlert p t) p := by
  rcases hf : p.active_alerts.find? (fun i => typeAt p i == some t) with _ | i
  · rw [clearAlert_of_none p t hf]
    exact SameNonAlert.rfl _
  · rcases hg : p.alert_history[i]? with _ | al
    · rw [clearAlert_of_some_none p t i hf hg]
      exact SameNonAlert.rfl _
    · rw [clearAlert_of_some p t i al hf hg]
      exact SameNonAlert.rfl _

theorem checkTemperature_frame (p : DataProcessor) (msg : StateMsg) (now : ℚ) :
    SameNonAlert (checkTemperature p msg now).1 p := by
  rcases ht : msg.temperature with _ | temp
  · simp only [checkTemperature, ht]
    exact SameNonAlert.rfl _
  · simp only [checkTemperature, ht]
    split_ifs
    · exact addAlert_frame _ _ _ _ _
    · exact addAlert_frame _ _ _ _ _
    · exact SameNonAlert.trans (clearAlert_frame _ _) (clearAlert_frame _ _)

theorem checkBladeWear_frame (p : DataProcessor) (msg : StateMsg) (now : ℚ) :
    SameNonAlert (checkBladeWear p msg now).1 p := by
  rcases hb : msg.bladewear with _ | wear
  · simp only [checkBladeWear, hb]
    exact SameNonAlert.rfl _
  · simp only [checkBladeWear, hb]
    split_ifs
    · exact addAlert_frame _ _ _ _ _
    · exact addAlert_frame _ _ _ _ _
    · exact SameNonAlert.rfl _

theorem checkPower_frame (p : DataProcessor) (msg : StateMsg) (now : ℚ) :
    SameNonAlert (checkPower p msg now).1 p := by
  rcases hb : msg.powerconsumption with _ | power
  · simp only [checkPower, hb]
    exact SameNonAlert.rfl _
  · simp only [checkPower, hb]
    split_ifs
    · exact addAlert_frame _ _ _ _ _
    · exact addAlert_frame _ _ _ _ _
    · exact SameNonAlert.rfl _

theorem checkSafety_frame (p : DataProcessor) (msg : StateMsg) (now : ℚ) :
    SameNonAlert (checkSafety p msg now).1 p := by
  rcases hb : msg.safetybarrier with _ | sb
  · simp only [checkSafety, hb]
    exact SameNonAlert.rfl _
  · simp only [checkSafety, hb]
    split_ifs
    · rcases hst : msg.state with _ | stv
      · simp only [hst]
        exact SameNonAlert.rfl _
      · simp only [hst]
        split_ifs
        · exact addAlert_frame _ _ _ _ _
        · exact SameNonAlert.rfl _
    · exact SameNonAlert.rfl _

theorem checkAlerts_frame (p : DataProcessor) (msg : StateMsg) (now : ℚ) :
    SameNonAlert (checkAlerts p msg now).1 p := by
  unfold checkAlerts
  rcases hct : checkTemperature p msg now with ⟨p1, e1⟩
  have f1 : SameNonAlert p1 p := by
    have := checkTemperature_frame p msg now
    rwa [hct] at this
  rcases e1 with e1 | u1 <;> simp only [hct]
  · exact f1
  · rcases hbw : checkBladeWear p1 msg now with ⟨p2, e2⟩
    have f2 : SameNonAlert p2 p1 := by
      have := checkBladeWear_frame p1 msg now
      rwa [hbw] at this
    rcases e2 with e2 | u2 <;> simp only [hbw]
    · exact f2.trans f1
    · rcases hpw : checkPower p2 msg now with ⟨p3, e3⟩
      have f3 : SameNonAlert p3 p2 := by
        have := checkPower_frame p2 msg now
        rwa [hpw] at this
      rcases e3 with e3 | u3 <;> simp only [hpw]
      · exact (f3.trans f2).trans f1
      · exact ((checkSafety_frame p3 msg now).trans ((f3.trans f2).trans f1))

theorem checkTemperature_ok (p : DataProcessor) (msg : StateMsg) (now : ℚ)
    (h : msg.temperature.isSome) : (checkTemperature p msg now).2 = Except.ok () := by
  rcases ht : msg.temperature with _ | temp
  · rw [ht] at h
    simp at h
  · simp only [checkTemperature, ht]
    split_ifs <;> rfl

theorem checkBladeWear_ok (p : DataProcessor) (msg : StateMsg) (now : ℚ)
    (h : msg.bladewear.isSome) : (checkBladeWear p msg now).2 = Except.ok () := by
  rcases hb : msg.bladewear with _ | wear
  · rw [hb] at h
    simp at h
  · simp only [checkBladeWear, hb]
    split_ifs <;> rfl

theorem checkPower_ok (p : DataProcessor) (msg : StateMsg) (now : ℚ)
    (h : msg.powerconsumption.isSome) : (checkPower p msg now).2 = Except.ok () := by
  rcases hb : msg.powerconsumption with _ | power
  · rw [hb] at h
    simp at h
  · simp only [checkPower, hb]
    split_ifs <;> rfl

theorem checkSafety_ok (p : DataProcessor) (msg : StateMsg) (now : ℚ)
    (h1 : msg.safetybarrier.isSome) (h2 : msg.state.isSome) :
    (checkSafety p msg now).2 = Except.ok () := by
  rcases hb : msg.safetybarrier with _ | sb
  · rw [hb] at h1
    simp at h1
  · simp only [checkSafety, hb]
    split_ifs
    · rcases hst : msg.state with _ | stv
      · rw [hst] at h2
        simp at h2
      · simp only [hst]
        split_ifs <;> rfl
    · rfl

theorem checkAlerts_ok (p : DataProcessor) (msg : StateMsg) (now : ℚ)
    (h1 : msg.temperature.isSome) (h2 : msg.bladewear.isSome)
    (h3 : msg.powerconsumption.isSome) (h4 : msg.safetybarrier.isSome)
    (h5 : msg.state.isSome) : (checkAlerts p msg now).2 = Except.ok () := by
  unfold checkAlerts
  rcases hct : checkTemperature p msg now with ⟨p1, e1⟩
  have e1ok : e1 = Except.ok () := by
    have := checkTemperature_ok p msg now h1
    rwa [hct] at this
  subst e1ok
  rcases hbw : checkBladeWear p1 msg now with ⟨p2, e2⟩
  have e2ok : e2 = Except.ok () := by
    have := checkBladeWear_ok p1 msg now h2
    rwa [hbw] at this
  subst e2ok
  rcases hpw : checkPower p2 msg now with ⟨p3, e3⟩
  have e3ok : e3 = Except.ok () := by
    have := checkPower_ok p2 msg now h3
    rwa [hpw] at this
  subst e3ok
  simp only [hct, hbw, hpw]
  exact checkSafety_ok p3 msg now h4 h5

/-- Field views of a complete reading. -/
theorem mkMsg_state (st : String) (sp pc pw tmp : ℚ) (sb : Bool) (bw : ℚ) :
    (mkMsg st sp pc pw tmp sb bw).state = some st := rfl

theorem mkMsg_cuttingspeed (st : String) (sp pc pw tmp : ℚ) (sb : Bool) (bw : ℚ) :
    (mkMsg st sp pc pw tmp sb bw).cuttingspeed = some sp := rfl

theorem mkMsg_piecescut (st : String) (sp pc pw tmp : ℚ) (sb : Bool) (bw : ℚ) :
    (mkMsg st sp pc pw tmp sb bw).piecescut = some pc := rfl

theorem mkMsg_powerconsumption (st : String) (sp pc pw tmp : ℚ) (sb : Bool) (bw : ℚ) :
    (mkMsg st sp pc pw tmp sb bw).powerconsumption = some pw := rfl

theorem mkMsg_temperature (st : String) (sp pc pw tmp : ℚ) (sb : Bool) (bw : ℚ) :
    (mkMsg st sp pc pw tmp sb bw).temperature = some tmp := rfl

theorem checkAlerts_mkMsg_ok (p : DataProcessor) (st : String) (sp pc pw tmp bw : ℚ)
    (sb : Bool) (now : ℚ) :
    (checkAlerts p (mkMsg st sp pc pw tmp sb bw) now).2 = Except.ok () :=
  checkAlerts_ok p (mkMsg st sp pc pw tmp sb bw) now rfl rfl rfl rfl rfl

/-- What one `process_state` call does on a complete reading: it
succeeds, reports the reading's `pieces_cut` as the hourly rate, stores
it in `hourly_pieces`, appends the power sample to the (count-bounded)
power buffer, keeps `window_size`, and advances the hour marker exactly
when more than 3600 seconds have elapsed since it was last set. -/
theorem processState_complete (p : DataProcessor) (st : String) (sp pc pw tmp bw : ℚ)
    (sb : Bool) (now : ℚ) :
    (processState p (mkMsg st sp pc pw tmp sb bw) now).2.map Metrics.hourly_rate =
      Except.ok pc ∧
    (processState p (mkMsg st sp pc pw tmp sb bw) now).1.hourly_pieces = pc ∧
    (processState p (mkMsg st sp pc pw tmp sb bw) now).1.last_hour_reset =
      (if 3600 < now - p.last_hour_reset then now else p.last_hour_reset) ∧
    (processState p (mkMsg st sp pc pw tmp sb bw) now).1.power_history =
      dequeAppend p.window_size p.power_history (now, pw) ∧
    (processState p (mkMsg st sp pc pw tmp sb bw) now).1.window_size = p.window_size := by
  simp only [processState, mkMsg_powerconsumption, mkMsg_cuttingspeed, mkMsg_temperature,
    mkMsg_piecescut]
  split
  · rename_i p6 e heq
    exfalso
    have h2 := congrArg Prod.snd heq
    rw [checkAlerts_mkMsg_ok _ st sp pc pw tmp bw sb now] at h2
    exact Except.noConfusion h2
  · rename_i p6 u heq
    have hfst := congrArg Prod.fst heq
    dsimp only at hfst
    refine ⟨?_, ?_, ?_, ?_, ?_⟩
    · show Except.ok (calculateMetrics p6 now).hourly_rate = Except.ok pc
      rw [show (calculateMetrics p6 now).hourly_rate = p6.hourly_pieces from rfl]
      rw [← hfst, (checkAlerts_frame _ _ _).2.2.2.2.1]
    · show p6.hourly_pieces = pc
      rw [← hfst, (checkAlerts_frame _ _ _).2.2.2.2.1]
    · show p6.last_hour_reset = _
      rw [← hfst, (checkAlerts_frame _ _ _).2.2.2.2.2]
      dsimp only
      split_ifs <;> rfl
    · show p6.power_history = _
      rw [← hfst, (checkAlerts_frame _ _ _).2.1]
      dsimp only
      split_ifs <;> rfl
    · show p6.window_size = _
      rw [← hfst, (checkAlerts_frame _ _ _).1]
      dsimp only
      split_ifs <;> rfl

/-- C9 amended: the production `hourly_rate` metric always equals the
reading's `pieces_cut` value; once more than one hour has elapsed since
the reset marker, ingesting a reading only advances the marker — the
momentary zeroing of the internal counter is immediately overwritten by
the reading's `pieces_cut`, so the reported counter is never reset to 0
by an ingest. -/
theorem hourly_rate_amended (p : DataProcessor) (st : String) (sp pc pw tmp bw : ℚ)
    (sb : Bool) (now : ℚ) :
    (processState p (mkMsg st sp pc pw tmp sb bw) now).2.map Metrics.hourly_rate =
      Except.ok pc ∧
    (processState p (mkMsg st sp pc pw tmp sb bw) now).1.hourly_pieces = pc ∧
    (processState p (mkMsg st sp pc pw tmp sb bw) now).1.last_hour_reset =
      (if 3600 < now - p.last_hour_reset then now else p.last_hour_reset) :=
  ⟨(processState_complete p st sp pc pw tmp bw sb now).1,
   (processState_complete p st sp pc pw tmp bw sb now).2.1,
   (processState_complete p st sp pc pw tmp bw sb now).2.2.1⟩

/-- C9 counterexample: more than one hour after the reset marker,
ingesting a reading with `pieces_cut = 5` still reports 5 — not 0 —
while only the marker is advanced. -/
theorem hourly_rate_not_reset_counterexample :
    3600 < (4000 : ℚ) - (DataProcessor.init 60 0).last_hour_reset ∧
    (processState (DataProcessor.init 60 0) (mkMsg "inactive" 0 5 1 20 true 0) 4000).2.map
      Metrics.hourly_rate = Except.ok 5 ∧
    (5 : ℚ) ≠ 0 ∧
    (processState (DataProcessor.init 60 0)
      (mkMsg "inactive" 0 5 1 20 true 0) 4000).1.last_hour_reset = 4000 := by
  have h := processState_complete (DataProcessor.init 60 0) "inactive" 0 5 1 20 0 true 4000
  refine ⟨by norm_num [DataProcessor.init], h.1, by norm_num, ?_⟩
  rw [h.2.2.1, if_pos]
  norm_num [DataProcessor.init]

/-- Tick twice per second: three complete readings 0.5 s apart, the
first carrying the distinctive power value 7. -/
def c8Msgs : List (StateMsg × ℚ) :=
  [ (mkMsg "inactive" 0 0 7 20 true 0, 0),
    (mkMsg "inactive" 0 0 1 20 true 0, 1/2),
    (mkMsg "inactive" 0 0 1 20 true 0, 1) ]

/-- A run of `process_state` calls over timestamped readings. -/
def procRun (p : DataProcessor) (msgs : List (StateMsg × ℚ)) : DataProcessor :=
  msgs.foldl (fun q m => (processState q m.1 m.2).1) p

/-- C8 (falsified): with `window_seconds = 2` and a 0.5 s tick, the
power sample ingested at t = 0 is evicted by the count bound of
`deque(maxlen=window_size)` after only 1 s of elapsed time — less than
`window_seconds` — so retention is bounded by sample count, and the
aggregation no longer sees the value 7 although its timestamp is still
inside the window. -/
theorem buffer_eviction_by_count :
    (procRun (DataProcessor.init 2 0) c8Msgs).power_history =
      [((1/2 : ℚ), (1 : ℚ)), ((1 : ℚ), (1 : ℚ))] ∧
    ((0 : ℚ), (7 : ℚ)) ∉ (procRun (DataProcessor.init 2 0) c8Msgs).power_history ∧
    (1 : ℚ) - 0 < 2 ∧
    1 - ((DataProcessor.init 2 0).window_size : ℚ) < 0 ∧
    (calculateMetrics (procRun (DataProcessor.init 2 0) c8Msgs) 1).powerconsumption.max
      = 1 := by
  have hrunEq : procRun (DataProcessor.init 2 0) c8Msgs =
      (processState (processState (processState (DataProcessor.init 2 0)
        (mkMsg "inactive" 0 0 7 20 true 0) 0).1
        (mkMsg "inactive" 0 0 1 20 true 0) (1/2)).1
        (mkMsg "inactive" 0 0 1 20 true 0) 1).1 := rfl
  have e1 := processState_complete (DataProcessor.init 2 0) "inactive" 0 0 7 20 0 true 0
  have hph1 : (processState (DataProcessor.init 2 0)
      (mkMsg "inactive" 0 0 7 20 true 0) 0).1.power_history = [((0 : ℚ), (7 : ℚ))] := by
    rw [e1.2.2.2.1]
    rfl
  have hws1 : (processState (DataProcessor.init 2 0)
      (mkMsg "inactive" 0 0 7 20 true 0) 0).1.window_size = 2 := by
    rw [e1.2.2.2.2]
    rfl
  have e2 := processState_complete (processState (DataProcessor.init 2 0)
    (mkMsg "inactive" 0 0 7 20 true 0) 0).1 "inactive" 0 0 1 20 0 true (1/2)
  have hph2 : (processState (processState (DataProcessor.init 2 0)
      (mkMsg "inactive" 0 0 7 20 true 0) 0).1
      (mkMsg "inactive" 0 0 1 20 true 0) (1/2)).1.power_history =
        [((0 : ℚ), (7 : ℚ)), ((1/2 : ℚ), (1 : ℚ))] := by
    rw [e2.2.2.2.1, hws1, hph1]
    rfl
  have hws2 : (processState (processState (DataProcessor.init 2 0)
      (mkMsg "inactive" 0 0 7 20 true 0) 0).1
      (mkMsg "inactive" 0 0 1 20 true 0) (1/2)).1.window_size = 2 := by
    rw [e2.2.2.2.2, hws1]
  have e3 := processState_complete (processState (processState (DataProcessor.init 2 0)
    (mkMsg "inactive" 0 0 7 20 true 0) 0).1
    (mkMsg "inactive" 0 0 1 20 true 0) (1/2)).1 "inactive" 0 0 1 20 0 true 1
  have hph3 : (procRun (DataProcessor.init 2 0) c8Msgs).power_history =
      [((1/2 : ℚ), (1 : ℚ)), ((1 : ℚ), (1 : ℚ))] := by
    rw [hrunEq, e3.2.2.2.1, hws2, hph2]
    rfl
  have hws3 : (procRun (DataProcessor.init 2 0) c8Msgs).window_size = 2 := by
    rw [hrunEq, e3.2.2.2.2, hws2]
  refine ⟨hph3, ?_, by norm_num, by norm_num [DataProcessor.init], ?_⟩
  · rw [hph3]
    intro hmem
    simp only [List.mem_cons, List.not_mem_nil, or_false] at hmem
    rcases hmem with hmem | hmem <;>
      exact absurd (congrArg Prod.fst hmem) (by norm_num)
  · unfold calculateMetrics
    rw [hph3, hws3]
    have hb1 : (decide ((1 : ℚ) - ((2 : ℕ) : ℚ) < 1/2)) = true := by
      simp only [decide_eq_true_eq]
      norm_num
    have hb2 : (decide ((1 : ℚ) - ((2 : ℕ) : ℚ) < 1)) = true := by
      simp only [decide_eq_true_eq]
      norm_num
    simp only [List.filter, hb1, hb2, List.map, channelMetrics]
    norm_num

end EdgeProc
